import Mathlib

/-!
Shallow embedding of the Master/Session entity model of
`src/unnamed/part_003` (classes `Wall`, `Furniture`, `Room`, `Layout3D`,
`LayoutRegistry` of the 3D real-estate layout viewer).

Modelling conventions:

* The mutable THREE.js object graph is embedded as an explicit store `S`
  mapping node addresses (`Nat`) to node records (`NodeData`).  Every
  `new THREE.Mesh` / `new THREE.Group` in the source allocates a fresh
  address; JavaScript in-place mutation of a node becomes a functional
  update of the store at that address.  Reference equality of JS objects
  is equality of addresses.
* `generateId()` (`Math.random().toString(36).substr(2, 9)`) is
  idealised as drawing a fresh value from the store's allocation
  counter: each call yields a value distinct from all previously
  generated ones.
* Heavy shared rendering resources (the static `Wall.geometry`,
  `Wall.material`, `Furniture.placeholderGeometry`,
  `Furniture.placeholderMaterial` singletons, and per-load asset
  buffers) are values of the type `Res`; the four static singletons are
  created once and shared by every instance, so they are modelled as
  fixed constructors, while each successful asset load creates fresh
  buffers, modelled by a counter-indexed constructor.  Equality of `Res`
  values coincides with JS reference equality of the handles.
* Transform components are rational numbers (`Rat`); the source only
  ever combines them by field arithmetic.
* Asynchronous fetch (`GLTFLoader.loadAsync`) is an oracle
  `String → Except AssetFetchError GltfAsset`; `Promise.all` in
  `loadAssets` joins independent per-furniture tasks that touch only
  their own furniture's nodes, so the join is embedded as the
  sequential composition of the per-furniture effects.
-/

/-- Three-component vector of rationals (THREE.Vector3 / Euler). -/
structure Vec3 where
  x : Rat
  y : Rat
  z : Rat
deriving Repr, DecidableEq

namespace Vec3

def zero : Vec3 := ⟨0, 0, 0⟩

def one : Vec3 := ⟨1, 1, 1⟩

/-- Componentwise addition. -/
def add (a b : Vec3) : Vec3 := ⟨a.x + b.x, a.y + b.y, a.z + b.z⟩

/-- Componentwise subtraction (`Vector3.sub`). -/
def sub (a b : Vec3) : Vec3 := ⟨a.x - b.x, a.y - b.y, a.z - b.z⟩

/-- Scalar multiplication (`Vector3.multiplyScalar`). -/
def smul (c : Rat) (a : Vec3) : Vec3 := ⟨c * a.x, c * a.y, c * a.z⟩

instance : Inhabited Vec3 := ⟨zero⟩

end Vec3

/-- Shared-resource handles (geometry / material buffers).  The four
static singletons of the source are fixed constructors; each successful
`loadAsync` call parses fresh buffers, distinguished by a counter drawn
at load time.  Equality of `Res` values is JS reference equality. -/
inductive Res where
  /-- `Wall.geometry` — the process-wide `BoxGeometry(1, 1, 1)`. -/
  | wallGeometry : Res
  /-- `Wall.material` — the process-wide off-white standard material. -/
  | wallMaterial : Res
  /-- `Furniture.placeholderGeometry` — the shared `BoxGeometry(2, 2, 2)`. -/
  | placeholderGeometry : Res
  /-- `Furniture.placeholderMaterial` — the shared grey material. -/
  | placeholderMaterial : Res
  /-- Geometry buffers created by one `loadAsync` call. -/
  | assetGeometry (loadId : Nat) : Res
  /-- Material buffers created by one `loadAsync` call. -/
  | assetMaterial (loadId : Nat) : Res
deriving Repr, DecidableEq

/-- `userData.entityId` values: either a generated random id
(`generateId()`) or — for the `Layout3D` root group only — the layout
identifier taken from the description (`this.id`, possibly absent). -/
inductive EntityId where
  | gen (n : Nat) : EntityId
  | given (id : Option String) : EntityId
deriving Repr, DecidableEq

/-- One THREE.Object3D node: transform, children (addresses, in
insertion order), optional geometry/material resource handles, and the
`userData` fields the source writes (`entityId`, `type`, `name`,
`isMaster`).  `contentMin`/`contentMax` describe the node's own
geometric content in its local frame (used for bounding boxes). -/
structure NodeData where
  entityId : Option EntityId
  nodeType : String
  nameTag : Option String
  isMaster : Option Bool
  position : Vec3
  rotation : Vec3
  scale : Vec3
  children : List Nat
  geometry : Option Res
  material : Option Res
  contentMin : Vec3
  contentMax : Vec3
deriving Repr, DecidableEq

instance : Inhabited NodeData :=
  ⟨{ entityId := none, nodeType := "", nameTag := none, isMaster := none,
     position := Vec3.zero, rotation := Vec3.zero, scale := Vec3.one,
     children := [], geometry := none, material := none,
     contentMin := Vec3.zero, contentMax := Vec3.zero }⟩

/-- Association-list lookup for the node store (first binding wins, so
prepending a binding overwrites). -/
def lookupNodes : List (Nat × NodeData) → Nat → Option NodeData
  | [], _ => none
  | p :: rest, a => if p.1 = a then some p.2 else lookupNodes rest a

/-- The global mutable state: the node store, the allocation counter
(used both for node addresses and generated entity ids), and the set of
resource handles on which `.dispose()` has been called. -/
structure S where
  nodes : List (Nat × NodeData)
  fresh : Nat
  disposed : List Res
deriving Repr, DecidableEq

namespace S

def empty : S := { nodes := [], fresh := 0, disposed := [] }

def lookup (s : S) (a : Nat) : Option NodeData := lookupNodes s.nodes a

/-- Allocate a new node at a fresh address. -/
def alloc (s : S) (nd : NodeData) : Nat × S :=
  (s.fresh, { s with nodes := (s.fresh, nd) :: s.nodes, fresh := s.fresh + 1 })

/-- Draw a fresh generated id (`generateId()`). -/
def genId (s : S) : Nat × S :=
  (s.fresh, { s with fresh := s.fresh + 1 })

/-- In-place mutation of the node at address `a`. -/
def update (s : S) (a : Nat) (f : NodeData → NodeData) : S :=
  match s.lookup a with
  | none => s
  | some nd => { s with nodes := (a, f nd) :: s.nodes }

/-- Record that `.dispose()` ran on a resource handle. -/
def markDisposed (s : S) (r : Res) : S :=
  if r ∈ s.disposed then s else { s with disposed := r :: s.disposed }

/-- Geometry handle of the node at `a`. -/
def geomOf (s : S) (a : Nat) : Option Res := ((s.lookup a).getD default).geometry

/-- Material handle of the node at `a`. -/
def matOf (s : S) (a : Nat) : Option Res := ((s.lookup a).getD default).material

/-- Children of the node at `a`. -/
def childrenOf (s : S) (a : Nat) : List Nat := ((s.lookup a).getD default).children

end S

/-! ## Wall (`class Wall`, part_003 lines 15–66) -/

/-- JS truthiness of an optional string field (`null`/`undefined` and
the empty string are falsy). -/
def jsTruthy : Option String → Bool
  | none => false
  | some u => u ≠ ""

/-- The mesh node built by the `Wall` constructor: shared unit-box
geometry and material, scaled to the wall dimensions
(`BoxGeometry(1, 1, 1)` spans `[-1/2, 1/2]³` in its local frame). -/
def wallNodeData (width height depth : Rat) (eid : Nat) : NodeData :=
  { entityId := some (.gen eid), nodeType := "Wall", nameTag := none, isMaster := none,
    position := Vec3.zero, rotation := Vec3.zero, scale := ⟨width, height, depth⟩,
    children := [], geometry := some .wallGeometry, material := some .wallMaterial,
    contentMin := ⟨-(1/2 : Rat), -(1/2 : Rat), -(1/2 : Rat)⟩,
    contentMax := ⟨(1/2 : Rat), (1/2 : Rat), (1/2 : Rat)⟩ }

/-- A `Wall` instance: dimensions plus the address of its mesh node. -/
structure Wall where
  width : Rat
  height : Rat
  depth : Rat
  mesh : Nat
deriving Repr, DecidableEq

/-- `new Wall(width, height, depth)`.  The static
`Wall.geometry`/`Wall.material` singletons are created on first use and
shared ever after, so every wall's mesh carries the same two handles. -/
def Wall.create (width height depth : Rat) (s : S) : Wall × S :=
  let (eid, s) := s.genId
  let (addr, s) := s.alloc (wallNodeData width height depth eid)
  ({ width := width, height := height, depth := depth, mesh := addr }, s)

/-- `Wall.setPosition(x, y, z)`. -/
def Wall.setPosition (w : Wall) (x y z : Rat) (s : S) : S :=
  s.update w.mesh (fun nd => { nd with position := ⟨x, y, z⟩ })

/-- `Wall.clone()`: a fresh wall of the same dimensions, with position
and rotation copied from the source mesh and a freshly generated
entity id. -/
def Wall.clone (w : Wall) (s : S) : Wall × S :=
  let (cw, s) := Wall.create w.width w.height w.depth s
  let src := (s.lookup w.mesh).getD default
  let s := s.update cw.mesh
    (fun nd => { nd with position := src.position, rotation := src.rotation })
  let (eid, s) := s.genId
  let s := s.update cw.mesh (fun nd => { nd with entityId := some (.gen eid) })
  (cw, s)

/-- `Wall.dispose()` is a no-op: the shared static geometry/material
are deliberately not disposed. -/
def Wall.dispose (_ : Wall) (s : S) : S := s

/-! ## Deep visual-tree copy (`SkeletonUtils.clone`)

`SkeletonUtils.clone(root)` deep-copies an Object3D subtree: every node
becomes a new object (fresh address), `position`/`rotation`/`scale`/
`name` are copied, `userData` is copied by value (so `entityId` values
are carried over verbatim), and geometry/material are shared by
reference.  The fuel argument bounds recursion depth; callers pass
`s.fresh`, which dominates the depth of any tree built by the
constructors (every child is allocated before its parent). -/

def S.cloneMany : Nat → List Nat → S → List Nat × S
  | 0, _, s => ([], s)
  | _ + 1, [], s => ([], s)
  | fuel + 1, a :: rest, s =>
    let nd := (s.lookup a).getD default
    let p := S.cloneMany fuel nd.children s
    let c := p.2.alloc { nd with children := p.1 }
    let q := S.cloneMany fuel rest c.2
    (c.1 :: q.1, q.2)

/-- Deep copy of the subtree rooted at `a`: the node record (transform,
`userData`, shared geometry/material handles) is copied verbatim at a
fresh address, children recursively.  `fuel` bounds the recursion and
always dominates the subtree size when callers pass `s.fresh`. -/
def S.cloneTree (fuel : Nat) (a : Nat) (s : S) : Nat × S :=
  let nd := (s.lookup a).getD default
  let p := S.cloneMany fuel nd.children s
  p.2.alloc { nd with children := p.1 }

/-! ## Furniture (`class Furniture`, part_003 lines 68–222) -/

/-- The placeholder mesh node built by the `Furniture` constructor
(shared `BoxGeometry(2, 2, 2)`, spanning `[-1, 1]³`, and the shared
grey placeholder material). -/
def placeholderMeshNode (eid : Nat) (name : Option String) : NodeData :=
  { entityId := some (.gen eid), nodeType := "Furniture", nameTag := name, isMaster := none,
    position := Vec3.zero, rotation := Vec3.zero, scale := Vec3.one,
    children := [], geometry := some .placeholderGeometry,
    material := some .placeholderMaterial,
    contentMin := ⟨-1, -1, -1⟩, contentMax := ⟨1, 1, 1⟩ }

/-- The root group node built by the `Furniture` constructor. -/
def furnitureRootNode (eid : Nat) (name : Option String) (child : Nat) : NodeData :=
  { entityId := some (.gen eid), nodeType := "Furniture", nameTag := name, isMaster := none,
    position := Vec3.zero, rotation := Vec3.zero, scale := Vec3.one,
    children := [child], geometry := none, material := none,
    contentMin := Vec3.zero, contentMax := Vec3.zero }

/-- A `Furniture` instance: metadata plus the addresses of its current
`mesh` (placeholder or loaded model) and its `root` group. -/
structure Furniture where
  name : Option String
  ftype : Option String
  modelUrl : Option String
  mesh : Nat
  root : Nat
deriving Repr, DecidableEq

/-- `new Furniture(name, type, modelUrl)`: a placeholder mesh inside a
fresh root group. -/
def Furniture.create (name ftype : Option String) (modelUrl : Option String) (s : S) :
    Furniture × S :=
  let (meid, s) := s.genId
  let (maddr, s) := s.alloc (placeholderMeshNode meid name)
  let (reid, s) := s.genId
  let (raddr, s) := s.alloc (furnitureRootNode reid name maddr)
  ({ name := name, ftype := ftype, modelUrl := modelUrl, mesh := maddr, root := raddr }, s)

/-- `Furniture.setPosition(x, y, z)` (mutates the root group). -/
def Furniture.setPosition (f : Furniture) (x y z : Rat) (s : S) : S :=
  s.update f.root (fun nd => { nd with position := ⟨x, y, z⟩ })

/-- `Furniture.setScale(x, y, z)`. -/
def Furniture.setScale (f : Furniture) (x y z : Rat) (s : S) : S :=
  s.update f.root (fun nd => { nd with scale := ⟨x, y, z⟩ })

/-- `Furniture.setRotation(x, y, z)`. -/
def Furniture.setRotation (f : Furniture) (x y z : Rat) (s : S) : S :=
  s.update f.root (fun nd => { nd with rotation := ⟨x, y, z⟩ })

/-- `Furniture.clone()`: build a fresh instance via the constructor,
deep-copy the source's visual root with `SkeletonUtils.clone` (which
carries descendant `userData` over verbatim), install the copy as the
clone's root, and overwrite only the copied root's `entityId` with a
freshly generated id.  The `mesh` field keeps the constructor-made
placeholder, exactly as in the source. -/
def Furniture.clone (f : Furniture) (s : S) : Furniture × S :=
  let (cf, s) := Furniture.create f.name f.ftype f.modelUrl s
  let (croot, s) := S.cloneTree s.fresh f.root s
  let (eid, s) := s.genId
  let s := s.update croot
    (fun nd => { nd with entityId := some (.gen eid), nodeType := "Furniture",
                         nameTag := f.name })
  ({ cf with root := croot }, s)

/-! ## Asset loading and normalization (`Furniture.loadModel`) -/

/-- Fetch failure (`AssetFetchError`): network error or missing
resource, carried by the rejected promise of `loadAsync`. -/
structure AssetFetchError where
  url : String
deriving Repr, DecidableEq

/-- The scene object delivered by one successful `loadAsync` call:
its own transform plus its content's axis-aligned bounding box in the
scene node's local frame.  GLTF scenes carry an identity rotation; the
rotation field is kept as data but (as in every state reached by the
source) boxes are computed for unrotated scenes. -/
structure GltfAsset where
  position : Vec3
  rotation : Vec3
  scale : Vec3
  contentMin : Vec3
  contentMax : Vec3
deriving Repr, DecidableEq

/-- `Math.min` / `Math.max` on rationals (kept as plain conditionals so
that concrete instances evaluate). -/
def ratMin (a b : Rat) : Rat := if a ≤ b then a else b

def ratMax (a b : Rat) : Rat := if a ≤ b then b else a

/-- One axis of an AABB after applying translation `p` and scale `sc`
to local extent `[a, b]`. -/
def axisMin (p sc a b : Rat) : Rat := p + ratMin (sc * a) (sc * b)

def axisMax (p sc a b : Rat) : Rat := p + ratMax (sc * a) (sc * b)

/-- `new THREE.Box3().setFromObject(model)` — minimum corner (the box
includes the object's own position and scale). -/
def GltfAsset.boxMin (g : GltfAsset) : Vec3 :=
  ⟨axisMin g.position.x g.scale.x g.contentMin.x g.contentMax.x,
   axisMin g.position.y g.scale.y g.contentMin.y g.contentMax.y,
   axisMin g.position.z g.scale.z g.contentMin.z g.contentMax.z⟩

def GltfAsset.boxMax (g : GltfAsset) : Vec3 :=
  ⟨axisMax g.position.x g.scale.x g.contentMin.x g.contentMax.x,
   axisMax g.position.y g.scale.y g.contentMin.y g.contentMax.y,
   axisMax g.position.z g.scale.z g.contentMin.z g.contentMax.z⟩

/-- `box.getSize(size)`. -/
def GltfAsset.boxSize (g : GltfAsset) : Vec3 := g.boxMax.sub g.boxMin

/-- `box.getCenter(center)` — the midpoint of the box corners. -/
def GltfAsset.boxCenter (g : GltfAsset) : Vec3 :=
  Vec3.smul (1/2 : Rat) (g.boxMin.add g.boxMax)

/-- `const maxDim = Math.max(size.x, size.y, size.z)`. -/
def GltfAsset.maxDim (g : GltfAsset) : Rat :=
  ratMax g.boxSize.x (ratMax g.boxSize.y g.boxSize.z)

/-- The node the normalized model occupies in the store: position
shifted by minus the box center, scale multiplied by `1 / maxDim` when
`maxDim > 0`, fresh per-load geometry/material buffers. -/
def normalizedModelNode (g : GltfAsset) (loadId : Nat) : NodeData :=
  { entityId := none, nodeType := "Model", nameTag := none, isMaster := none,
    position := g.position.sub g.boxCenter,
    rotation := g.rotation,
    scale := if 0 < g.maxDim then Vec3.smul (1 / g.maxDim) g.scale else g.scale,
    children := [], geometry := some (.assetGeometry loadId),
    material := some (.assetMaterial loadId),
    contentMin := g.contentMin, contentMax := g.contentMax }

/-- The body of `Furniture.loadModel` without its `try/catch`: fetch
the asset, normalize it (centre on the bounding-box midpoint, then
scale uniformly by `1/maxDim` when the maximum dimension is positive),
and swap the placeholder for the model under the root
(`root.remove(this.mesh); root.add(model); this.mesh = model`).
A fetch failure propagates as `AssetFetchError`. -/
def Furniture.loadModelBody (fetch : String → Except AssetFetchError GltfAsset)
    (f : Furniture) (s : S) : Except AssetFetchError (Furniture × S) :=
  if jsTruthy f.modelUrl then
    match f.modelUrl with
    | none => .ok (f, s)
    | some url =>
      match fetch url with
      | .error e => .error e
      | .ok g =>
        let (loadId, s) := s.genId
        let (addr, s) := s.alloc (normalizedModelNode g loadId)
        let s := s.update f.root
          (fun nd => { nd with children := nd.children.filter (· ≠ f.mesh) ++ [addr] })
        .ok ({ f with mesh := addr }, s)
  else .ok (f, s)

/-- `Furniture.loadModel` as callers see it: the whole body runs inside
`try { … } catch (err) { console.error(…) }`, so a fetch failure is
recovered locally, leaving the furniture and the store unchanged
(the placeholder subtree is retained). -/
def Furniture.loadModel (fetch : String → Except AssetFetchError GltfAsset)
    (f : Furniture) (s : S) : Furniture × S :=
  match Furniture.loadModelBody fetch f s with
  | .error _ => (f, s)
  | .ok r => r

/-! `Furniture.dispose()` visits the subtree under `this.mesh` and
disposes the geometry and material of every mesh node in it.  The
source's guard is
`if (this.mesh && this.mesh !== Furniture.placeholderGeometry && this.modelUrl)`:
`this.mesh` is always a live object, and the middle comparison tests a
`Mesh` against a `BufferGeometry` — two objects that can never be the
same — so it is always true, leaving only the truthiness of
`this.modelUrl`. -/

def S.disposeMany : Nat → List Nat → S → S
  | 0, _, s => s
  | _ + 1, [], s => s
  | fuel + 1, a :: rest, s =>
    let nd := (s.lookup a).getD default
    let s :=
      match nd.geometry with
      | some g => s.markDisposed g
      | none => s
    let s :=
      match nd.material with
      | some m => s.markDisposed m
      | none => s
    let s := S.disposeMany fuel nd.children s
    S.disposeMany fuel rest s

/-- Preorder traversal of the subtree at `a` disposing the geometry and
material of every mesh node in it (`this.mesh.traverse(...)`). -/
def S.disposeTree (fuel : Nat) (a : Nat) (s : S) : S :=
  let nd := (s.lookup a).getD default
  let s :=
    match nd.geometry with
    | some g => s.markDisposed g
    | none => s
  let s :=
    match nd.material with
    | some m => s.markDisposed m
    | none => s
  S.disposeMany fuel nd.children s

def Furniture.dispose (f : Furniture) (s : S) : S :=
  if jsTruthy f.modelUrl then S.disposeTree s.fresh f.mesh s else s

/-! ## Description records (the JSON payload) -/

/-- A furniture record of the description.  JSON fields that may be
absent are `Option`s (`undefined` = `none`). -/
structure FurnitureData where
  name : Option String
  ftype : Option String
  modelUrl : Option String
  position : Option Vec3
  rotation : Option Vec3
  scale : Option Vec3
deriving Repr, DecidableEq

/-- `Furniture.fromJSON(data)`: construct, then apply whichever of
position/rotation/scale are present. -/
def Furniture.fromJSON (d : FurnitureData) (s : S) : Furniture × S :=
  let (f, s) := Furniture.create d.name d.ftype d.modelUrl s
  let s :=
    match d.position with
    | some p => Furniture.setPosition f p.x p.y p.z s
    | none => s
  let s :=
    match d.rotation with
    | some r => Furniture.setRotation f r.x r.y r.z s
    | none => s
  let s :=
    match d.scale with
    | some sc => Furniture.setScale f sc.x sc.y sc.z s
    | none => s
  (f, s)

/-! ## Room (`class Room`, part_003 lines 224–323) -/

/-- The group node built by the `Room` constructor. -/
def roomGroupNode (eid : Nat) (name : Option String) : NodeData :=
  { entityId := some (.gen eid), nodeType := "Room", nameTag := name, isMaster := none,
    position := Vec3.zero, rotation := Vec3.zero, scale := Vec3.one,
    children := [], geometry := none, material := none,
    contentMin := Vec3.zero, contentMax := Vec3.zero }

/-- A `Room` instance: metadata, its furniture and wall collections,
and the address of its group node. -/
structure Room where
  name : Option String
  width : Rat
  depth : Rat
  furnitureList : List Furniture
  walls : List Wall
  group : Nat
deriving Repr, DecidableEq

/-- `Room.addWall(wall)`: push onto `walls`, attach the mesh to the
group. -/
def Room.addWall (r : Room) (w : Wall) (s : S) : Room × S :=
  ({ r with walls := r.walls ++ [w] },
   s.update r.group (fun nd => { nd with children := nd.children ++ [w.mesh] }))

/-- `Room.addFurniture(furniture)`: push onto `furnitureList`, attach
the furniture root to the group. -/
def Room.addFurniture (r : Room) (f : Furniture) (s : S) : Room × S :=
  ({ r with furnitureList := r.furnitureList ++ [f] },
   s.update r.group (fun nd => { nd with children := nd.children ++ [f.root] }))

/-- `Room.generateWalls()`: remove any previous walls from the group,
then build the four walls from the room's width/depth and the fixed
height `3.5` and thickness `0.5`, positioning each. -/
def Room.generateWalls (r : Room) (s : S) : Room × S :=
  let h : Rat := 7/2
  let t : Rat := 1/2
  let s := r.walls.foldl
    (fun s w => s.update r.group
      (fun nd => { nd with children := nd.children.filter (· ≠ w.mesh) })) s
  let r := { r with walls := [] }
  let (back, s) := Wall.create r.width h t s
  let s := Wall.setPosition back 0 (h/2) (-(r.depth/2)) s
  let (r, s) := Room.addWall r back s
  let (front, s) := Wall.create r.width h t s
  let s := Wall.setPosition front 0 (h/2) (r.depth/2) s
  let (r, s) := Room.addWall r front s
  let (left, s) := Wall.create t h r.depth s
  let s := Wall.setPosition left (-(r.width/2)) (h/2) 0 s
  let (r, s) := Room.addWall r left s
  let (right, s) := Wall.create t h r.depth s
  let s := Wall.setPosition right (r.width/2) (h/2) 0 s
  let (r, s) := Room.addWall r right s
  (r, s)

/-- `new Room(name, width = 20, depth = 20)`: group node, then walls
generated automatically. -/
def Room.create (name : Option String) (width depth : Rat) (s : S) : Room × S :=
  let (eid, s) := s.genId
  let (gaddr, s) := s.alloc (roomGroupNode eid name)
  Room.generateWalls
    { name := name, width := width, depth := depth,
      furnitureList := [], walls := [], group := gaddr } s

/-- A room record of the description; absent `width`/`depth` take the
constructor defaults (`20`). -/
structure RoomData where
  name : Option String
  width : Option Rat
  depth : Option Rat
  furniture : Option (List FurnitureData)
deriving Repr, DecidableEq

/-- The `data.furniture.forEach(...)` loop of `Room.fromJSON`. -/
def Room.hydrateFurnInto (r : Room) (l : List FurnitureData) (s : S) : Room × S :=
  match l with
  | [] => (r, s)
  | d :: rest =>
    let (f, s) := Furniture.fromJSON d s
    let (r, s) := Room.addFurniture r f s
    Room.hydrateFurnInto r rest s

/-- `Room.fromJSON(data)`. -/
def Room.fromJSON (d : RoomData) (s : S) : Room × S :=
  let (r, s) := Room.create d.name (d.width.getD 20) (d.depth.getD 20) s
  Room.hydrateFurnInto r (d.furniture.getD []) s

/-- The furniture-cloning loop of `Room.clone`. -/
def Room.cloneFurnInto (r : Room) (l : List Furniture) (s : S) : Room × S :=
  match l with
  | [] => (r, s)
  | f :: rest =>
    let (cf, s) := Furniture.clone f s
    let (r, s) := Room.addFurniture r cf s
    Room.cloneFurnInto r rest s

/-- `Room.clone()`: a fresh room via the constructor (walls are
regenerated there, never copied), each furniture cloned and re-added,
the group position copied from the source, and a fresh entity id on
the new group. -/
def Room.clone (r : Room) (s : S) : Room × S :=
  let (cr, s) := Room.create r.name r.width r.depth s
  let (cr, s) := Room.cloneFurnInto cr r.furnitureList s
  let srcPos := ((s.lookup r.group).getD default).position
  let s := s.update cr.group (fun nd => { nd with position := srcPos })
  let (eid, s) := s.genId
  let s := s.update cr.group (fun nd => { nd with entityId := some (.gen eid) })
  (cr, s)

/-- `Room.dispose()`: dispose walls (no-ops), then furniture. -/
def Room.dispose (r : Room) (s : S) : S :=
  let s := r.walls.foldl (fun s w => Wall.dispose w s) s
  r.furnitureList.foldl (fun s f => Furniture.dispose f s) s

/-! ## Layout3D (`class Layout3D`, part_003 lines 325–392) -/

/-- The camera-view value of a description (`{position, lookTarget}`);
the clone copies it by spread, a by-value copy at this level. -/
structure CameraView where
  position : Vec3
  lookTarget : Vec3
deriving Repr, DecidableEq

/-- The group node built by the `Layout3D` constructor: its
`userData.entityId` is the layout identifier from the description (not
a generated id), and `isMaster` starts `true`. -/
def layoutGroupNode (id : Option String) : NodeData :=
  { entityId := some (.given id), nodeType := "Layout3D", nameTag := none,
    isMaster := some true,
    position := Vec3.zero, rotation := Vec3.zero, scale := Vec3.one,
    children := [], geometry := none, material := none,
    contentMin := Vec3.zero, contentMax := Vec3.zero }

/-- A `Layout3D` instance. -/
structure Layout3D where
  id : Option String
  description : Option String
  rooms : List Room
  cameraView : Option CameraView
  group : Nat
deriving Repr, DecidableEq

/-- `new Layout3D(id, description)`. -/
def Layout3D.create (id description : Option String) (s : S) : Layout3D × S :=
  let (gaddr, s) := s.alloc (layoutGroupNode id)
  ({ id := id, description := description, rooms := [], cameraView := none,
     group := gaddr }, s)

/-- `Layout3D.addRoom(room)`. -/
def Layout3D.addRoom (l : Layout3D) (r : Room) (s : S) : Layout3D × S :=
  ({ l with rooms := l.rooms ++ [r] },
   s.update l.group (fun nd => { nd with children := nd.children ++ [r.group] }))

/-- A layout record of the description. -/
structure LayoutData where
  id : Option String
  name : Option String
  cameraView : Option CameraView
  rooms : Option (List RoomData)
deriving Repr, DecidableEq

/-- The `data.rooms.forEach(...)` loop of `Layout3D.fromJSON`. -/
def Layout3D.hydrateRoomsInto (l : Layout3D) (ds : List RoomData) (s : S) : Layout3D × S :=
  match ds with
  | [] => (l, s)
  | d :: rest =>
    let (r, s) := Room.fromJSON d s
    let (l, s) := Layout3D.addRoom l r s
    Layout3D.hydrateRoomsInto l rest s

/-- `Layout3D.fromJSON(data)`: `new Layout3D(data.id, data.name)`, the
camera view if present, then each room record hydrated and added.
No field is validated; missing fields flow through as absent values. -/
def Layout3D.fromJSON (d : LayoutData) (s : S) : Layout3D × S :=
  let (l, s) := Layout3D.create d.id d.name s
  let l :=
    match d.cameraView with
    | some cv => { l with cameraView := some cv }
    | none => l
  Layout3D.hydrateRoomsInto l (d.rooms.getD []) s

/-- The per-furniture loop body of `loadAssets` over one room's
furniture list (the `Promise.all` join of independent per-furniture
tasks, embedded as their sequential composition). -/
def loadFurnList (fetch : String → Except AssetFetchError GltfAsset) :
    List Furniture → S → List Furniture × S
  | [], s => ([], s)
  | f :: rest, s =>
    let (f', s) := Furniture.loadModel fetch f s
    let (rest', s') := loadFurnList fetch rest s
    (f' :: rest', s')

/-- `loadAssets` over the room list. -/
def loadRooms (fetch : String → Except AssetFetchError GltfAsset) :
    List Room → S → List Room × S
  | [], s => ([], s)
  | r :: rest, s =>
    let (fl, s) := loadFurnList fetch r.furnitureList s
    let (rest', s') := loadRooms fetch rest s
    ({ r with furnitureList := fl } :: rest', s')

/-- `Layout3D.loadAssets()`: hydrate every furniture of every room and
join all attempts (`await Promise.all(promises)`); individual failures
are caught inside `Furniture.loadModel` and never propagate. -/
def Layout3D.loadAssets (fetch : String → Except AssetFetchError GltfAsset)
    (l : Layout3D) (s : S) : Layout3D × S :=
  let (rs, s') := loadRooms fetch l.rooms s
  ({ l with rooms := rs }, s')

/-- The room-cloning loop of `Layout3D.clone`. -/
def Layout3D.cloneRoomsInto (l : Layout3D) (rs : List Room) (s : S) : Layout3D × S :=
  match rs with
  | [] => (l, s)
  | r :: rest =>
    let (cr, s) := Room.clone r s
    let (l, s) := Layout3D.addRoom l cr s
    Layout3D.cloneRoomsInto l rest s

/-- `Layout3D.clone()`: fresh instance with the same id and
description, camera view copied by value, rooms deep-cloned, and
`isMaster` forced to `false` on the clone's group. -/
def Layout3D.clone (l : Layout3D) (s : S) : Layout3D × S :=
  let (cl, s) := Layout3D.create l.id l.description s
  let cl :=
    match l.cameraView with
    | some cv => { cl with cameraView := some cv }
    | none => cl
  let (cl, s) := Layout3D.cloneRoomsInto cl l.rooms s
  let s := s.update cl.group (fun nd => { nd with isMaster := some false })
  (cl, s)

/-- `Layout3D.dispose()`. -/
def Layout3D.dispose (l : Layout3D) (s : S) : S :=
  l.rooms.foldl (fun s r => Room.dispose r s) s

/-! ## LayoutRegistry (`class LayoutRegistry`, part_003 lines 397–415) -/

/-- `getSessionClone` failure for an unregistered id
(`throw new Error(...)`). -/
structure NotFoundError where
  id : String
deriving Repr, DecidableEq

/-- The registry's `masters` map, as an association list where the
newest binding for an id wins (`Map.set` overwrites). -/
def LayoutRegistry := List (String × Layout3D)

/-- `registry.masters.get(id)`. -/
def LayoutRegistry.find (reg : LayoutRegistry) (id : String) : Option Layout3D :=
  match reg with
  | [] => none
  | p :: rest => if p.1 = id then some p.2 else LayoutRegistry.find rest id

/-- `registerMaster(id, layout)`: last write wins. -/
def LayoutRegistry.registerMaster (reg : LayoutRegistry) (id : String) (l : Layout3D) :
    LayoutRegistry :=
  (id, l) :: reg

/-- `getSessionClone(id)`: look the master up, fail with
`NotFoundError` when absent, otherwise return `master.clone()`. -/
def LayoutRegistry.getSessionClone (reg : LayoutRegistry) (id : String) (s : S) :
    Except NotFoundError (Layout3D × S) :=
  match LayoutRegistry.find reg id with
  | none => .error ⟨id⟩
  | some master => .ok (Layout3D.clone master s)

/-! ## Allocation-freshness infrastructure

Every operation of the source only ever mutates nodes it owns and
allocates at fresh addresses; these lemmas make that precise.  `mono`:
the allocation counter never decreases.  `pres`: the binding of an
address already allocated before the operation is unchanged, except at
the explicitly exempted addresses the operation mutates. -/

instance : Inhabited Furniture :=
  ⟨{ name := none, ftype := none, modelUrl := none, mesh := 0, root := 0 }⟩

instance : Inhabited Wall := ⟨{ width := 0, height := 0, depth := 0, mesh := 0 }⟩

instance : Inhabited Room :=
  ⟨{ name := none, width := 0, depth := 0, furnitureList := [], walls := [], group := 0 }⟩

/-- Axis-aligned bounding box of the content of a stored node under its
own transform — what `Box3.setFromObject` measures on that node after
normalization has adjusted its position and scale. -/
def NodeData.boxMin (nd : NodeData) : Vec3 :=
  ⟨axisMin nd.position.x nd.scale.x nd.contentMin.x nd.contentMax.x,
   axisMin nd.position.y nd.scale.y nd.contentMin.y nd.contentMax.y,
   axisMin nd.position.z nd.scale.z nd.contentMin.z nd.contentMax.z⟩

def NodeData.boxMax (nd : NodeData) : Vec3 :=
  ⟨axisMax nd.position.x nd.scale.x nd.contentMin.x nd.contentMax.x,
   axisMax nd.position.y nd.scale.y nd.contentMin.y nd.contentMax.y,
   axisMax nd.position.z nd.scale.z nd.contentMin.z nd.contentMax.z⟩

/-- Centre of the measured box of a stored node. -/
def NodeData.boxCenter (nd : NodeData) : Vec3 :=
  Vec3.smul (1/2 : Rat) (nd.boxMin.add nd.boxMax)

/-! ### Concrete instances used to exercise the theorems -/

/-- A loadable asset whose content box is `[0, 4]³` (max dimension 4),
authored with identity transform like a typical GLTF scene. -/
def sofaAsset : GltfAsset :=
  { position := Vec3.zero, rotation := Vec3.zero, scale := Vec3.one,
    contentMin := Vec3.zero, contentMax := ⟨4, 4, 4⟩ }

/-- A degenerate asset: its bounding box is a single point, so the
maximum dimension is `0`. -/
def pointAsset : GltfAsset :=
  { position := ⟨1, 2, 3⟩, rotation := Vec3.zero, scale := ⟨2, 2, 2⟩,
    contentMin := ⟨5, 5, 5⟩, contentMax := ⟨5, 5, 5⟩ }

/-- A fetch oracle that succeeds on `sofa.glb` and fails on every other
URL. -/
def fetchMixed : String → Except AssetFetchError GltfAsset :=
  fun url => if url = "sofa.glb" then Except.ok sofaAsset else Except.error ⟨url⟩

/-- A fetch oracle delivering the degenerate asset. -/
def fetchPoint : String → Except AssetFetchError GltfAsset :=
  fun _ => Except.ok pointAsset

/-- A two-furniture description: the sofa's asset will load, the lamp's
will fail. -/
def demoLayoutData : LayoutData :=
  { id := some "layout-101", name := some "Downtown Apartment",
    cameraView := none,
    rooms := some [
      { name := some "living", width := some 10, depth := some 8,
        furniture := some [
          { name := some "sofa", ftype := some "seat", modelUrl := some "sofa.glb",
            position := some ⟨0, 0, 0⟩, rotation := none, scale := none },
          { name := some "lamp", ftype := some "light", modelUrl := some "lamp.glb",
            position := none, rotation := none, scale := none }] }] }

def demoMaster : Layout3D := (Layout3D.fromJSON demoLayoutData S.empty).1

def demoState : S := (Layout3D.fromJSON demoLayoutData S.empty).2

def demoRegistry : LayoutRegistry :=
  LayoutRegistry.registerMaster [] "layout-101" demoMaster

def demoSession : Layout3D := (Layout3D.clone demoMaster demoState).1

def demoS1 : S := (Layout3D.clone demoMaster demoState).2

def demoSession2 : Layout3D := (Layout3D.clone demoMaster demoS1).1

def demoS2 : S := (Layout3D.clone demoMaster demoS1).2

def demoSofa : Furniture :=
  ((demoMaster.rooms.get? 0).bind (fun r => r.furnitureList.get? 0)).getD default

def demoLamp : Furniture :=
  ((demoMaster.rooms.get? 0).bind (fun r => r.furnitureList.get? 1)).getD default

def demoSessionSofa : Furniture :=
  ((demoSession.rooms.get? 0).bind (fun r => r.furnitureList.get? 0)).getD default

def demoRoom : Room := (demoMaster.rooms.get? 0).getD default

def demoR1 : Room := (demoSession.rooms.get? 0).getD default

def demoR2 : Room := (demoSession2.rooms.get? 0).getD default

def demoW1 : Wall := (demoR1.walls.get? 0).getD default

def demoW2 : Wall := (demoR2.walls.get? 0).getD default

/-- A standalone furniture with no asset reference (placeholder only). -/
def c2Furn : Furniture := (Furniture.create (some "sofa") (some "seat") none S.empty).1

def c2State : S := (Furniture.create (some "sofa") (some "seat") none S.empty).2

/-- A furniture that carries an asset reference but whose asset was
never successfully loaded: its mesh is still the shared placeholder. -/
def c8Furn : Furniture :=
  (Furniture.create (some "chair") (some "seat") (some "chair.glb") S.empty).1

def c8State : S :=
  (Furniture.create (some "chair") (some "seat") (some "chair.glb") S.empty).2

/-- A furniture whose asset is the `[0, 4]³` sofa asset. -/
def c6Furn : Furniture :=
  (Furniture.create (some "big") (some "decor") (some "sofa.glb") S.empty).1

def c6State : S :=
  (Furniture.create (some "big") (some "decor") (some "sofa.glb") S.empty).2

/-- A furniture whose asset has a degenerate (zero-size) bounding box. -/
def c10Furn : Furniture :=
  (Furniture.create (some "plant") (some "decor") (some "plant.glb") S.empty).1

def c10State : S :=
  (Furniture.create (some "plant") (some "decor") (some "plant.glb") S.empty).2

/-- A description record missing every field. -/
def malformedLayoutData : LayoutData :=
  { id := none, name := none, cameraView := none, rooms := none }

def malformedFurnitureData : FurnitureData :=
  { name := none, ftype := none, modelUrl := none,
    position := none, rotation := none, scale := none }

/-- Roots of the furniture of a list (used to state that distinct
furniture own distinct root nodes). -/
def furnRoots (fs : List Furniture) : List Nat := fs.map (fun f => f.root)

/-- All furniture roots across a room list, in traversal order. -/
def roomsFurnRoots : List Room → List Nat
  | [] => []
  | r :: rest => furnRoots r.furnitureList ++ roomsFurnRoots rest

theorem lookupNodes_cons (p : Nat × NodeData) (rest : List (Nat × NodeData)) (a : Nat) :
    lookupNodes (p :: rest) a = if p.1 = a then some p.2 else lookupNodes rest a := rfl

theorem S.lookup_update_self (s : S) (a : Nat) (f : NodeData → NodeData) :
    (s.update a f).lookup a = (s.lookup a).map f := by
  unfold S.update
  cases h : s.lookup a with
  | none => simp [h]
  | some nd => simp [S.lookup, lookupNodes_cons]

theorem S.lookup_update_ne (s : S) (a b : Nat) (f : NodeData → NodeData) (h : b ≠ a) :
    (s.update a f).lookup b = s.lookup b := by
  unfold S.update
  cases hl : s.lookup a with
  | none => rfl
  | some nd => simp [S.lookup, lookupNodes_cons, (Ne.symm h)]

theorem S.update_fresh (s : S) (a : Nat) (f : NodeData → NodeData) :
    (s.update a f).fresh = s.fresh := by
  unfold S.update
  cases s.lookup a <;> rfl

theorem S.lookup_alloc (s : S) (nd : NodeData) (b : Nat) :
    (s.alloc nd).2.lookup b = if s.fresh = b then some nd else s.lookup b := by
  simp [S.alloc, S.lookup, lookupNodes_cons]

theorem S.lookup_alloc_lt (s : S) (nd : NodeData) (b : Nat) (h : b < s.fresh) :
    (s.alloc nd).2.lookup b = s.lookup b := by
  rw [S.lookup_alloc]
  simp [Nat.ne_of_gt h]

theorem S.alloc_fresh (s : S) (nd : NodeData) : (s.alloc nd).2.fresh = s.fresh + 1 := rfl

theorem S.alloc_addr (s : S) (nd : NodeData) : (s.alloc nd).1 = s.fresh := rfl

theorem S.genId_fresh (s : S) : s.genId.2.fresh = s.fresh + 1 := rfl

theorem S.lookup_genId (s : S) (b : Nat) : s.genId.2.lookup b = s.lookup b := rfl

theorem S.markDisposed_lookup (s : S) (r : Res) (b : Nat) :
    (s.markDisposed r).lookup b = s.lookup b := by
  unfold S.markDisposed
  split <;> rfl

theorem S.markDisposed_fresh (s : S) (r : Res) :
    (s.markDisposed r).fresh = s.fresh := by
  unfold S.markDisposed
  split <;> rfl

theorem S.cloneMany_mono : ∀ (fuel : Nat) (l : List Nat) (s : S),
    s.fresh ≤ (S.cloneMany fuel l s).2.fresh := by
  intro fuel
  induction fuel with
  | zero => intro l s; exact Nat.le_refl _
  | succ f ih =>
    intro l s
    cases l with
    | nil => exact Nat.le_refl _
    | cons a rest =>
      simp only [S.cloneMany, S.alloc]
      refine Nat.le_trans ?_ (ih rest _)
      have h1 := ih ((s.lookup a).getD default).children s
      dsimp only
      omega

theorem S.cloneMany_pres : ∀ (fuel : Nat) (l : List Nat) (s : S) (b : Nat),
    b < s.fresh → (S.cloneMany fuel l s).2.lookup b = s.lookup b := by
  intro fuel
  induction fuel with
  | zero => intro l s b _; rfl
  | succ f ih =>
    intro l s b hb
    cases l with
    | nil => rfl
    | cons a rest =>
      simp only [S.cloneMany]
      rw [ih rest _ b (by
        have h1 := S.cloneMany_mono f ((s.lookup a).getD default).children s
        simp only [S.alloc]
        omega)]
      rw [S.lookup_alloc_lt _ _ b (by
        have h1 := S.cloneMany_mono f ((s.lookup a).getD default).children s
        omega)]
      exact ih _ s b hb

theorem S.cloneTree_mono (fuel a : Nat) (s : S) :
    s.fresh ≤ (S.cloneTree fuel a s).2.fresh := by
  simp only [S.cloneTree, S.alloc]
  exact Nat.le_trans (S.cloneMany_mono fuel _ s) (Nat.le_succ _)

theorem S.cloneTree_pres (fuel a : Nat) (s : S) (b : Nat) (hb : b < s.fresh) :
    (S.cloneTree fuel a s).2.lookup b = s.lookup b := by
  simp only [S.cloneTree]
  rw [S.lookup_alloc_lt _ _ b (by
    have h1 := S.cloneMany_mono fuel ((s.lookup a).getD default).children s
    omega)]
  exact S.cloneMany_pres fuel _ s b hb

theorem S.cloneTree_addr_ge (fuel a : Nat) (s : S) :
    s.fresh ≤ (S.cloneTree fuel a s).1 := by
  simp only [S.cloneTree, S.alloc]
  exact S.cloneMany_mono fuel _ s

theorem S.cloneTree_addr_lt (fuel a : Nat) (s : S) :
    (S.cloneTree fuel a s).1 < (S.cloneTree fuel a s).2.fresh := by
  simp only [S.cloneTree, S.alloc]
  exact Nat.lt_succ_self _


theorem lookupNodes_cons_ne (p : Nat × NodeData) (rest : List (Nat × NodeData)) (a : Nat)
    (h : p.1 ≠ a) : lookupNodes (p :: rest) a = lookupNodes rest a := by
  simp [lookupNodes_cons, h]

/-! ### Constructor equations and effects -/

theorem Wall.wall_create_eq (w h d : Rat) (s : S) :
    Wall.create w h d s =
      ({ width := w, height := h, depth := d, mesh := s.fresh + 1 },
       { s with nodes := (s.fresh + 1, wallNodeData w h d s.fresh) :: s.nodes,
                fresh := s.fresh + 2 }) := rfl

theorem Wall.wall_create_pres (w h d : Rat) (s : S) (b : Nat) (hb : b < s.fresh) :
    (Wall.create w h d s).2.lookup b = s.lookup b := by
  have h1 : s.fresh + 1 ≠ b := by omega
  simp [Wall.wall_create_eq, S.lookup, lookupNodes_cons, h1]

theorem Furniture.furn_create_eq (n t u : Option String) (s : S) :
    Furniture.create n t u s =
      ({ name := n, ftype := t, modelUrl := u, mesh := s.fresh + 1, root := s.fresh + 3 },
       { s with
          nodes := (s.fresh + 3, furnitureRootNode (s.fresh + 2) n (s.fresh + 1)) ::
            (s.fresh + 1, placeholderMeshNode s.fresh n) :: s.nodes,
          fresh := s.fresh + 4 }) := by
  simp [Furniture.create, S.genId, S.alloc, Nat.add_assoc]

theorem Furniture.furn_create_pres (n t u : Option String) (s : S) (b : Nat) (hb : b < s.fresh) :
    (Furniture.create n t u s).2.lookup b = s.lookup b := by
  have h1 : s.fresh + 1 ≠ b := by omega
  have h3 : s.fresh + 3 ≠ b := by omega
  simp [Furniture.furn_create_eq, S.lookup, lookupNodes_cons, h1, h3]

theorem Layout3D.layout_create_eq (id de : Option String) (s : S) :
    Layout3D.create id de s =
      ({ id := id, description := de, rooms := [], cameraView := none, group := s.fresh },
       { s with nodes := (s.fresh, layoutGroupNode id) :: s.nodes,
                fresh := s.fresh + 1 }) := rfl

theorem Layout3D.layout_create_pres (id de : Option String) (s : S) (b : Nat) (hb : b < s.fresh) :
    (Layout3D.create id de s).2.lookup b = s.lookup b := by
  have h0 : s.fresh ≠ b := by omega
  simp [Layout3D.layout_create_eq, S.lookup, lookupNodes_cons, h0]

/-- The `Room` value produced by the constructor: no furniture and the
four generated walls (back, front, left, right). -/
theorem Room.create_room (n : Option String) (w d : Rat) (s : S) :
    (Room.create n w d s).1 =
      { name := n, width := w, depth := d, furnitureList := [],
        walls := [
          { width := w, height := 7/2, depth := 1/2, mesh := s.fresh + 3 },
          { width := w, height := 7/2, depth := 1/2, mesh := s.fresh + 5 },
          { width := 1/2, height := 7/2, depth := d, mesh := s.fresh + 7 },
          { width := 1/2, height := 7/2, depth := d, mesh := s.fresh + 9 }],
        group := s.fresh + 1 } := by
  simp [Room.create, Room.generateWalls, Wall.create, Wall.setPosition, Room.addWall,
    S.genId, S.alloc, S.update_fresh, Nat.add_assoc]

theorem Room.create_fresh (n : Option String) (w d : Rat) (s : S) :
    (Room.create n w d s).2.fresh = s.fresh + 10 := by
  simp [Room.create, Room.generateWalls, Wall.create, Wall.setPosition, Room.addWall,
    S.genId, S.alloc, S.update_fresh, Nat.add_assoc]

theorem Room.create_pres (n : Option String) (w d : Rat) (s : S) (b : Nat)
    (hb : b < s.fresh) : (Room.create n w d s).2.lookup b = s.lookup b := by
  have h1 : b ≠ s.fresh + 1 := by omega
  have h3 : b ≠ s.fresh + 3 := by omega
  have h5 : b ≠ s.fresh + 5 := by omega
  have h7 : b ≠ s.fresh + 7 := by omega
  have h9 : b ≠ s.fresh + 9 := by omega
  simp [Room.create, Room.generateWalls, Wall.create, Wall.setPosition, Room.addWall,
    S.genId, S.alloc, S.update, S.lookup, lookupNodes_cons, Nat.add_assoc,
    h1, h3, h5, h7, h9, Ne.symm h1, Ne.symm h3, Ne.symm h5, Ne.symm h7, Ne.symm h9]

/-- In the state left by the `Room` constructor, each generated wall
mesh carries the shared wall geometry and material. -/
theorem Room.create_wall_resources (n : Option String) (w d : Rat) (s : S) (k : Nat)
    (hk : k = 3 ∨ k = 5 ∨ k = 7 ∨ k = 9) :
    S.geomOf (Room.create n w d s).2 (s.fresh + k) = some Res.wallGeometry ∧
    S.matOf (Room.create n w d s).2 (s.fresh + k) = some Res.wallMaterial := by
  rcases hk with h | h | h | h <;> subst h <;>
    simp [Room.create, Room.generateWalls, Wall.create, Wall.setPosition, Room.addWall,
      S.genId, S.alloc, S.update, S.lookup, S.geomOf, S.matOf, lookupNodes_cons,
      Nat.add_assoc, wallNodeData, roomGroupNode]

theorem Room.addWall_room (r : Room) (w : Wall) (s : S) :
    (Room.addWall r w s).1 = { r with walls := r.walls ++ [w] } := rfl

theorem Room.addWall_fresh (r : Room) (w : Wall) (s : S) :
    (Room.addWall r w s).2.fresh = s.fresh := S.update_fresh _ _ _

theorem Room.addWall_pres (r : Room) (w : Wall) (s : S) (b : Nat) (h : b ≠ r.group) :
    (Room.addWall r w s).2.lookup b = s.lookup b := S.lookup_update_ne _ _ _ _ h

theorem Room.addFurniture_room (r : Room) (f : Furniture) (s : S) :
    (Room.addFurniture r f s).1 = { r with furnitureList := r.furnitureList ++ [f] } := rfl

theorem Room.addFurniture_fresh (r : Room) (f : Furniture) (s : S) :
    (Room.addFurniture r f s).2.fresh = s.fresh := S.update_fresh _ _ _

theorem Room.addFurniture_pres (r : Room) (f : Furniture) (s : S) (b : Nat)
    (h : b ≠ r.group) : (Room.addFurniture r f s).2.lookup b = s.lookup b :=
  S.lookup_update_ne _ _ _ _ h

theorem Layout3D.addRoom_layout (l : Layout3D) (r : Room) (s : S) :
    (Layout3D.addRoom l r s).1 = { l with rooms := l.rooms ++ [r] } := rfl

theorem Layout3D.addRoom_fresh (l : Layout3D) (r : Room) (s : S) :
    (Layout3D.addRoom l r s).2.fresh = s.fresh := S.update_fresh _ _ _

theorem Layout3D.addRoom_pres (l : Layout3D) (r : Room) (s : S) (b : Nat)
    (h : b ≠ l.group) : (Layout3D.addRoom l r s).2.lookup b = s.lookup b :=
  S.lookup_update_ne _ _ _ _ h

/-! ### Furniture.clone effects -/

theorem Furniture.clone_meta (f : Furniture) (s : S) :
    (Furniture.clone f s).1.name = f.name ∧ (Furniture.clone f s).1.ftype = f.ftype ∧
    (Furniture.clone f s).1.modelUrl = f.modelUrl := by
  simp only [Furniture.clone]
  exact ⟨rfl, rfl, rfl⟩

theorem Furniture.clone_root_ge (f : Furniture) (s : S) :
    s.fresh ≤ (Furniture.clone f s).1.root := by
  have h1 := S.cloneTree_addr_ge (Furniture.create f.name f.ftype f.modelUrl s).2.fresh
    f.root (Furniture.create f.name f.ftype f.modelUrl s).2
  simp only [Furniture.clone]
  simp only [Furniture.furn_create_eq] at h1 ⊢
  exact Nat.le_trans (by omega) h1

theorem Furniture.clone_mono (f : Furniture) (s : S) :
    s.fresh ≤ (Furniture.clone f s).2.fresh := by
  have h1 := S.cloneTree_mono (Furniture.create f.name f.ftype f.modelUrl s).2.fresh
    f.root (Furniture.create f.name f.ftype f.modelUrl s).2
  simp only [Furniture.clone, S.update_fresh, S.genId_fresh]
  simp only [Furniture.furn_create_eq] at h1 ⊢
  omega

theorem Furniture.clone_root_lt (f : Furniture) (s : S) :
    (Furniture.clone f s).1.root < (Furniture.clone f s).2.fresh := by
  have h1 := S.cloneTree_addr_lt (Furniture.create f.name f.ftype f.modelUrl s).2.fresh
    f.root (Furniture.create f.name f.ftype f.modelUrl s).2
  simp only [Furniture.clone, S.update_fresh, S.genId_fresh]
  simp only [Furniture.furn_create_eq] at h1 ⊢
  omega

theorem Furniture.clone_pres (f : Furniture) (s : S) (b : Nat) (hb : b < s.fresh) :
    (Furniture.clone f s).2.lookup b = s.lookup b := by
  have hcf : b < (Furniture.create f.name f.ftype f.modelUrl s).2.fresh := by
    simp only [Furniture.furn_create_eq]; omega
  have hct := S.cloneTree_pres (Furniture.create f.name f.ftype f.modelUrl s).2.fresh
    f.root (Furniture.create f.name f.ftype f.modelUrl s).2 b hcf
  have hne : b ≠ (S.cloneTree (Furniture.create f.name f.ftype f.modelUrl s).2.fresh
      f.root (Furniture.create f.name f.ftype f.modelUrl s).2).1 := by
    have := S.cloneTree_addr_ge (Furniture.create f.name f.ftype f.modelUrl s).2.fresh
      f.root (Furniture.create f.name f.ftype f.modelUrl s).2
    simp only [Furniture.furn_create_eq] at this ⊢
    omega
  simp only [Furniture.clone]
  rw [S.lookup_update_ne _ _ _ _ hne, S.lookup_genId, hct,
    Furniture.furn_create_pres _ _ _ _ _ hb]

/-! ### Room.cloneFurnInto effects -/

theorem Room.cloneFurnInto_facts : ∀ (l : List Furniture) (r : Room) (s : S),
    s.fresh ≤ (Room.cloneFurnInto r l s).2.fresh ∧
    (Room.cloneFurnInto r l s).1.group = r.group ∧
    (Room.cloneFurnInto r l s).1.walls = r.walls ∧
    (∀ b, b < s.fresh → b ≠ r.group →
      (Room.cloneFurnInto r l s).2.lookup b = s.lookup b) ∧
    (∀ g ∈ (Room.cloneFurnInto r l s).1.furnitureList,
      g ∈ r.furnitureList ∨
        (s.fresh ≤ g.root ∧ g.root < (Room.cloneFurnInto r l s).2.fresh)) := by
  intro l
  induction l with
  | nil =>
    intro r s
    refine ⟨Nat.le_refl _, rfl, rfl, fun b _ _ => rfl, ?_⟩
    intro g hg
    exact Or.inl hg
  | cons f rest ih =>
    intro r s
    simp only [Room.cloneFurnInto]
    set cf := (Furniture.clone f s).1 with hcf
    set s2 := (Furniture.clone f s).2 with hs2
    set r2 := (Room.addFurniture r cf s2).1 with hr2
    set s3 := (Room.addFurniture r cf s2).2 with hs3
    obtain ⟨ihmono, ihgroup, ihwalls, ihpres, ihmem⟩ := ih r2 s3
    have hg2 : r2.group = r.group := by rw [hr2, Room.addFurniture_room]
    have hf3 : s3.fresh = s2.fresh := by rw [hs3, Room.addFurniture_fresh]
    have hmono2 : s.fresh ≤ s2.fresh := Furniture.clone_mono f s
    refine ⟨?_, ?_, ?_, ?_, ?_⟩
    · omega
    · rw [ihgroup, hg2]
    · rw [ihwalls, hr2, Room.addFurniture_room]
    · intro b hb hbg
      rw [ihpres b (by omega) (by rw [hg2]; exact hbg),
        Room.addFurniture_pres _ _ _ _ hbg,
        Furniture.clone_pres f s b hb]
    · intro g hg
      rcases ihmem g hg with hmem | hfreshg
      · rw [hr2, Room.addFurniture_room] at hmem
        simp only [List.mem_append, List.mem_singleton] at hmem
        rcases hmem with hmem | rfl
        · exact Or.inl hmem
        · have h1 := Furniture.clone_root_lt f s
          have h2 := Furniture.clone_root_ge f s
          have hb1 : cf.root = (Furniture.clone f s).1.root := by rw [hcf]
          have hb2 : s2.fresh = (Furniture.clone f s).2.fresh := by rw [hs2]
          exact Or.inr ⟨by omega, by omega⟩
      · exact Or.inr ⟨by omega, hfreshg.2⟩

/-! ### Room.clone effects -/

theorem Room.room_clone_facts (r : Room) (s : S) :
    s.fresh ≤ (Room.clone r s).2.fresh ∧
    (Room.clone r s).1.group = s.fresh + 1 ∧
    (∀ b, b < s.fresh → (Room.clone r s).2.lookup b = s.lookup b) ∧
    (∀ g ∈ (Room.clone r s).1.furnitureList,
      s.fresh ≤ g.root ∧ g.root < (Room.clone r s).2.fresh) ∧
    (∀ w ∈ (Room.clone r s).1.walls,
      S.geomOf (Room.clone r s).2 w.mesh = some Res.wallGeometry ∧
      S.matOf (Room.clone r s).2 w.mesh = some Res.wallMaterial ∧
      s.fresh ≤ w.mesh ∧ w.mesh < (Room.clone r s).2.fresh) := by
  obtain ⟨ffmono, ffgroup, ffwalls, ffpres, ffmem⟩ :=
    Room.cloneFurnInto_facts r.furnitureList (Room.create r.name r.width r.depth s).1
      (Room.create r.name r.width r.depth s).2
  have hgrp : (Room.create r.name r.width r.depth s).1.group = s.fresh + 1 := by
    rw [Room.create_room]
  have hfr : (Room.create r.name r.width r.depth s).2.fresh = s.fresh + 10 :=
    Room.create_fresh _ _ _ _
  rw [hgrp] at ffgroup ffpres
  rw [hfr] at ffmono ffpres ffmem
  have hval : (Room.clone r s).1 =
      (Room.cloneFurnInto (Room.create r.name r.width r.depth s).1 r.furnitureList
        (Room.create r.name r.width r.depth s).2).1 := by
    simp only [Room.clone]
  have hfresh : (Room.clone r s).2.fresh =
      (Room.cloneFurnInto (Room.create r.name r.width r.depth s).1 r.furnitureList
        (Room.create r.name r.width r.depth s).2).2.fresh + 1 := by
    simp only [Room.clone, S.update_fresh, S.genId_fresh]
  have hstable : ∀ b, b < s.fresh + 10 → b ≠ s.fresh + 1 →
      (Room.clone r s).2.lookup b =
      (Room.create r.name r.width r.depth s).2.lookup b := by
    intro b hb hb1
    simp only [Room.clone, S.lookup_genId]
    rw [S.lookup_update_ne _ _ _ _ (by rw [ffgroup]; exact hb1), S.lookup_genId,
      S.lookup_update_ne _ _ _ _ (by rw [ffgroup]; exact hb1), ffpres b hb hb1]
  refine ⟨by rw [hfresh]; omega, by rw [hval, ffgroup], ?_, ?_, ?_⟩
  · intro b hb
    rw [hstable b (by omega) (by omega), Room.create_pres _ _ _ _ _ hb]
  · intro g hg
    rw [hval] at hg
    rcases ffmem g hg with hmem | hrange
    · rw [Room.create_room] at hmem
      simp at hmem
    · exact ⟨by omega, by rw [hfresh]; omega⟩
  · intro w hw
    rw [hval, ffwalls, Room.create_room] at hw
    simp only [List.mem_cons, List.not_mem_nil, or_false] at hw
    have hmesh : w.mesh = s.fresh + 3 ∨ w.mesh = s.fresh + 5 ∨
        w.mesh = s.fresh + 7 ∨ w.mesh = s.fresh + 9 := by
      rcases hw with rfl | rfl | rfl | rfl <;> simp
    have hres : ∀ k, k = 3 ∨ k = 5 ∨ k = 7 ∨ k = 9 →
        S.geomOf (Room.create r.name r.width r.depth s).2 (s.fresh + k) =
          some Res.wallGeometry ∧
        S.matOf (Room.create r.name r.width r.depth s).2 (s.fresh + k) =
          some Res.wallMaterial :=
      fun k hk => Room.create_wall_resources r.name r.width r.depth s k hk
    simp only [S.geomOf, S.matOf] at hres ⊢
    rcases hmesh with hm | hm | hm | hm
    · rw [hm, hstable (s.fresh + 3) (by omega) (by omega)]
      exact ⟨(hres 3 (Or.inl rfl)).1, (hres 3 (Or.inl rfl)).2, by omega,
        by rw [hfresh]; omega⟩
    · rw [hm, hstable (s.fresh + 5) (by omega) (by omega)]
      exact ⟨(hres 5 (Or.inr (Or.inl rfl))).1, (hres 5 (Or.inr (Or.inl rfl))).2,
        by omega, by rw [hfresh]; omega⟩
    · rw [hm, hstable (s.fresh + 7) (by omega) (by omega)]
      exact ⟨(hres 7 (Or.inr (Or.inr (Or.inl rfl)))).1,
        (hres 7 (Or.inr (Or.inr (Or.inl rfl)))).2, by omega, by rw [hfresh]; omega⟩
    · rw [hm, hstable (s.fresh + 9) (by omega) (by omega)]
      exact ⟨(hres 9 (Or.inr (Or.inr (Or.inr rfl)))).1,
        (hres 9 (Or.inr (Or.inr (Or.inr rfl)))).2, by omega, by rw [hfresh]; omega⟩

/-- The cloned wall's mesh node carries the freshly generated entity id
(`clonedWall.mesh.userData.entityId = this.generateId()`), the second
id drawn during the clone. -/
theorem Wall.clone_mesh_id (w : Wall) (s : S) :
    (((Wall.clone w s).2.lookup (Wall.clone w s).1.mesh).getD default).entityId =
      some (EntityId.gen (s.fresh + 2)) := by
  simp [Wall.clone, Wall.wall_create_eq, S.genId, S.update, S.lookup, lookupNodes,
    wallNodeData, Nat.add_assoc]

/-- The group node left by the `Room` constructor: the generated id and
the four wall meshes as children. -/
theorem Room.create_group_lookup (n : Option String) (w d : Rat) (s : S) :
    (Room.create n w d s).2.lookup (s.fresh + 1) =
      some { roomGroupNode s.fresh n with
        children := [s.fresh + 3, s.fresh + 5, s.fresh + 7, s.fresh + 9] } := by
  have h31 : s.fresh + 3 ≠ s.fresh + 1 := by omega
  have h51 : s.fresh + 5 ≠ s.fresh + 1 := by omega
  have h71 : s.fresh + 7 ≠ s.fresh + 1 := by omega
  have h91 : s.fresh + 9 ≠ s.fresh + 1 := by omega
  have h53 : s.fresh + 5 ≠ s.fresh + 3 := by omega
  have h73 : s.fresh + 7 ≠ s.fresh + 3 := by omega
  have h93 : s.fresh + 9 ≠ s.fresh + 3 := by omega
  have h75 : s.fresh + 7 ≠ s.fresh + 5 := by omega
  have h95 : s.fresh + 9 ≠ s.fresh + 5 := by omega
  have h97 : s.fresh + 9 ≠ s.fresh + 7 := by omega
  simp [Room.create, Room.generateWalls, Wall.create, Wall.setPosition, Room.addWall,
    S.genId, S.alloc, S.update, S.lookup, lookupNodes_cons, Nat.add_assoc, roomGroupNode,
    h31, h51, h71, h91, h53, h73, h93, h75, h95, h97,
    Ne.symm h31, Ne.symm h51, Ne.symm h71, Ne.symm h91, Ne.symm h53, Ne.symm h73,
    Ne.symm h93, Ne.symm h75, Ne.symm h95, Ne.symm h97]

/-- The furniture-cloning loop of `Room.clone` only appends children to
the room's group node: the node stays present with all other fields
unchanged. -/
theorem Room.cloneFurnInto_group_lookup : ∀ (l : List Furniture) (r : Room) (s : S)
    (nd : NodeData), r.group < s.fresh → s.lookup r.group = some nd →
    ∃ ch, (Room.cloneFurnInto r l s).2.lookup r.group =
      some { nd with children := ch } := by
  intro l
  induction l with
  | nil =>
    intro r s nd _ hnd
    exact ⟨nd.children, by simp only [Room.cloneFurnInto]; rw [hnd]⟩
  | cons f rest ih =>
    intro r s nd hg hnd
    simp only [Room.cloneFurnInto]
    have h2 : (Furniture.clone f s).2.lookup r.group = some nd := by
      rw [Furniture.clone_pres f s r.group hg]; exact hnd
    have hmono2 : s.fresh ≤ (Furniture.clone f s).2.fresh := Furniture.clone_mono f s
    have h3 : (Room.addFurniture r (Furniture.clone f s).1
          (Furniture.clone f s).2).2.lookup r.group =
        some { nd with children := nd.children ++ [(Furniture.clone f s).1.root] } := by
      simp only [Room.addFurniture]
      rw [S.lookup_update_self, h2]
      rfl
    have hg3 : (Room.addFurniture r (Furniture.clone f s).1
        (Furniture.clone f s).2).1.group = r.group := by
      rw [Room.addFurniture_room]
    have hfr3 : (Room.addFurniture r (Furniture.clone f s).1
          (Furniture.clone f s).2).2.fresh = (Furniture.clone f s).2.fresh :=
      Room.addFurniture_fresh _ _ _
    obtain ⟨ch, hch⟩ := ih
      (Room.addFurniture r (Furniture.clone f s).1 (Furniture.clone f s).2).1
      (Room.addFurniture r (Furniture.clone f s).1 (Furniture.clone f s).2).2
      { nd with children := nd.children ++ [(Furniture.clone f s).1.root] }
      (by rw [hg3, hfr3]; omega)
      (by rw [hg3]; exact h3)
    rw [hg3] at hch
    exact ⟨ch, hch⟩

/-- `Room.clone` ends by writing a freshly generated entity id onto the
new group node (`clonedRoom.group.userData.entityId = this.generateId()`):
the stored id is a generator draw at or beyond the pre-clone frontier. -/
theorem Room.clone_group_id (r : Room) (s : S) :
    ∃ e, s.fresh ≤ e ∧
      (((Room.clone r s).2.lookup (Room.clone r s).1.group).getD default).entityId =
        some (EntityId.gen e) := by
  obtain ⟨ffmono, ffgroup, -, -, -⟩ :=
    Room.cloneFurnInto_facts r.furnitureList (Room.create r.name r.width r.depth s).1
      (Room.create r.name r.width r.depth s).2
  have hgrp : (Room.create r.name r.width r.depth s).1.group = s.fresh + 1 := by
    rw [Room.create_room]
  have hfr : (Room.create r.name r.width r.depth s).2.fresh = s.fresh + 10 :=
    Room.create_fresh _ _ _ _
  obtain ⟨ch, hch⟩ := Room.cloneFurnInto_group_lookup r.furnitureList
    (Room.create r.name r.width r.depth s).1 (Room.create r.name r.width r.depth s).2
    { roomGroupNode s.fresh r.name with
      children := [s.fresh + 3, s.fresh + 5, s.fresh + 7, s.fresh + 9] }
    (by rw [hgrp, hfr]; omega)
    (by rw [hgrp]; exact Room.create_group_lookup r.name r.width r.depth s)
  rw [hgrp] at hch
  have hg2 : (Room.cloneFurnInto (Room.create r.name r.width r.depth s).1
      r.furnitureList (Room.create r.name r.width r.depth s).2).1.group =
      s.fresh + 1 := by
    rw [ffgroup, hgrp]
  refine ⟨(Room.cloneFurnInto (Room.create r.name r.width r.depth s).1 r.furnitureList
      (Room.create r.name r.width r.depth s).2).2.fresh, by omega, ?_⟩
  have hval : (Room.clone r s).1.group = s.fresh + 1 := by
    simp only [Room.clone]
    exact hg2
  rw [hval]
  simp only [Room.clone, hg2]
  rw [S.lookup_update_self, S.lookup_genId, S.lookup_update_self, hch]
  simp [S.genId, S.update_fresh]

theorem S.geomOf_congr (s' s : S) (a : Nat) (h : s'.lookup a = s.lookup a) :
    S.geomOf s' a = S.geomOf s a := by simp [S.geomOf, h]

theorem S.matOf_congr (s' s : S) (a : Nat) (h : s'.lookup a = s.lookup a) :
    S.matOf s' a = S.matOf s a := by simp [S.matOf, h]

theorem Layout3D.addRoom_group_lookup (l : Layout3D) (r : Room) (s : S) :
    (Layout3D.addRoom l r s).2.lookup l.group =
      (s.lookup l.group).map
        (fun nd => { nd with children := nd.children ++ [r.group] }) :=
  S.lookup_update_self _ _ _

/-! ### Layout3D.cloneRoomsInto effects -/

theorem Layout3D.cloneRoomsInto_facts : ∀ (rs : List Room) (l : Layout3D) (s : S),
    l.group < s.fresh →
    s.fresh ≤ (Layout3D.cloneRoomsInto l rs s).2.fresh ∧
    (Layout3D.cloneRoomsInto l rs s).1.group = l.group ∧
    (Layout3D.cloneRoomsInto l rs s).1.id = l.id ∧
    (∀ b, b < s.fresh → b ≠ l.group →
      (Layout3D.cloneRoomsInto l rs s).2.lookup b = s.lookup b) ∧
    (∀ nd, s.lookup l.group = some nd → ∃ ch,
      (Layout3D.cloneRoomsInto l rs s).2.lookup l.group =
        some { nd with children := ch }) ∧
    (∀ rm ∈ (Layout3D.cloneRoomsInto l rs s).1.rooms, rm ∈ l.rooms ∨
      ((∀ g ∈ rm.furnitureList, s.fresh ≤ g.root ∧
          g.root < (Layout3D.cloneRoomsInto l rs s).2.fresh) ∧
       (∀ w ∈ rm.walls,
          S.geomOf (Layout3D.cloneRoomsInto l rs s).2 w.mesh = some Res.wallGeometry ∧
          S.matOf (Layout3D.cloneRoomsInto l rs s).2 w.mesh = some Res.wallMaterial ∧
          s.fresh ≤ w.mesh ∧
          w.mesh < (Layout3D.cloneRoomsInto l rs s).2.fresh))) := by
  intro rs
  induction rs with
  | nil =>
    intro l s hg
    refine ⟨Nat.le_refl _, rfl, rfl, fun b _ _ => rfl, ?_, ?_⟩
    · intro nd hnd
      exact ⟨nd.children, by simp only [Layout3D.cloneRoomsInto]; rw [hnd]⟩
    · intro rm hrm
      exact Or.inl hrm
  | cons r rest ih =>
    intro l s hg
    obtain ⟨rcmono, rcgroup, rcpres, rcfurn, rcwalls⟩ := Room.room_clone_facts r s
    simp only [Layout3D.cloneRoomsInto]
    have hl2group : (Layout3D.addRoom l (Room.clone r s).1 (Room.clone r s).2).1.group
        = l.group := by rw [Layout3D.addRoom_layout]
    have hl2id : (Layout3D.addRoom l (Room.clone r s).1 (Room.clone r s).2).1.id
        = l.id := by rw [Layout3D.addRoom_layout]
    have hl2rooms : (Layout3D.addRoom l (Room.clone r s).1 (Room.clone r s).2).1.rooms
        = l.rooms ++ [(Room.clone r s).1] := by rw [Layout3D.addRoom_layout]
    have hs3fresh : (Layout3D.addRoom l (Room.clone r s).1 (Room.clone r s).2).2.fresh
        = (Room.clone r s).2.fresh := Layout3D.addRoom_fresh _ _ _
    obtain ⟨ihmono, ihgroup, ihid, ihpres, ihnode, ihmem⟩ :=
      ih (Layout3D.addRoom l (Room.clone r s).1 (Room.clone r s).2).1
        (Layout3D.addRoom l (Room.clone r s).1 (Room.clone r s).2).2
        (by rw [hl2group, hs3fresh]; omega)
    rw [hl2group] at ihpres ihnode ihgroup
    rw [hs3fresh] at ihmono ihpres
    have hpres3 : ∀ b, b < s.fresh → b ≠ l.group →
        (Layout3D.cloneRoomsInto
          (Layout3D.addRoom l (Room.clone r s).1 (Room.clone r s).2).1 rest
          (Layout3D.addRoom l (Room.clone r s).1 (Room.clone r s).2).2).2.lookup b
        = s.lookup b := by
      intro b hb hbg
      rw [ihpres b (by omega) hbg, Layout3D.addRoom_pres _ _ _ _ hbg, rcpres b hb]
    refine ⟨by omega, by rw [ihgroup], by rw [ihid, hl2id], hpres3, ?_, ?_⟩
    · intro nd hnd
      have h2 : (Room.clone r s).2.lookup l.group = some nd := by
        rw [rcpres l.group hg]; exact hnd
      have h3 : (Layout3D.addRoom l (Room.clone r s).1 (Room.clone r s).2).2.lookup
          l.group = some { nd with children := nd.children ++
            [(Room.clone r s).1.group] } := by
        rw [Layout3D.addRoom_group_lookup, h2]; rfl
      obtain ⟨ch, hch⟩ := ihnode _ h3
      exact ⟨ch, hch⟩
    · intro rm hrm
      rcases ihmem rm hrm with hmem | hfacts
      · rw [hl2rooms] at hmem
        simp only [List.mem_append, List.mem_singleton] at hmem
        rcases hmem with hmem | rfl
        · exact Or.inl hmem
        · refine Or.inr ⟨?_, ?_⟩
          · intro g hgm
            obtain ⟨hg1, hg2⟩ := rcfurn g hgm
            exact ⟨hg1, by omega⟩
          · intro w hw
            obtain ⟨hw1, hw2, hw3, hw4⟩ := rcwalls w hw
            have hst : (Layout3D.cloneRoomsInto
                (Layout3D.addRoom l (Room.clone r s).1 (Room.clone r s).2).1 rest
                (Layout3D.addRoom l (Room.clone r s).1 (Room.clone r s).2).2).2.lookup
                  w.mesh = (Room.clone r s).2.lookup w.mesh := by
              rw [ihpres w.mesh (by omega) (by omega),
                Layout3D.addRoom_pres _ _ _ _ (by omega)]
            refine ⟨?_, ?_, hw3, by omega⟩
            · rw [S.geomOf_congr _ _ _ hst]; exact hw1
            · rw [S.matOf_congr _ _ _ hst]; exact hw2
      · obtain ⟨hf, hw⟩ := hfacts
        refine Or.inr ⟨?_, ?_⟩
        · intro g hgm
          obtain ⟨h1, h2⟩ := hf g hgm
          exact ⟨by omega, h2⟩
        · intro w hwm
          obtain ⟨h1, h2, h3, h4⟩ := hw w hwm
          exact ⟨h1, h2, by omega, h4⟩

/-- `Layout3D.clone` as a single pipeline: the camera-view copy
(`{ ...this.cameraView }` when present) always results in the source's
camera-view value on the clone. -/
theorem Layout3D.clone_eq_cases (l : Layout3D) (s : S) :
    Layout3D.clone l s =
      (let c := Layout3D.create l.id l.description s
       let cl := { c.1 with cameraView := l.cameraView }
       let p := Layout3D.cloneRoomsInto cl l.rooms c.2
       (p.1, p.2.update p.1.group (fun nd => { nd with isMaster := some false }))) := by
  cases hcv : l.cameraView <;> simp [Layout3D.clone, Layout3D.layout_create_eq, hcv]

theorem Layout3D.layout_clone_facts (l : Layout3D) (s : S) :
    s.fresh ≤ (Layout3D.clone l s).2.fresh ∧
    (Layout3D.clone l s).1.id = l.id ∧
    (∀ b, b < s.fresh → (Layout3D.clone l s).2.lookup b = s.lookup b) ∧
    (∃ nd, (Layout3D.clone l s).2.lookup (Layout3D.clone l s).1.group = some nd ∧
      nd.isMaster = some false ∧ nd.entityId = some (EntityId.given l.id)) ∧
    (∀ rm ∈ (Layout3D.clone l s).1.rooms,
      (∀ g ∈ rm.furnitureList, s.fresh ≤ g.root ∧
        g.root < (Layout3D.clone l s).2.fresh) ∧
      (∀ w ∈ rm.walls,
        S.geomOf (Layout3D.clone l s).2 w.mesh = some Res.wallGeometry ∧
        S.matOf (Layout3D.clone l s).2 w.mesh = some Res.wallMaterial ∧
        s.fresh ≤ w.mesh ∧ w.mesh < (Layout3D.clone l s).2.fresh)) := by
  obtain ⟨crmono, crgroup, crid, crpres, crnode, crmem⟩ :=
    Layout3D.cloneRoomsInto_facts l.rooms
      { (Layout3D.create l.id l.description s).1 with cameraView := l.cameraView }
      (Layout3D.create l.id l.description s).2
      (by simp [Layout3D.layout_create_eq])
  simp only [Layout3D.layout_create_eq] at crmono crgroup crid crpres crnode crmem
  simp only [Layout3D.clone_eq_cases, Layout3D.layout_create_eq, S.update_fresh]
  refine ⟨by omega, by rw [crid], ?_, ?_, ?_⟩
  · intro b hb
    have h0 : s.fresh ≠ b := by omega
    rw [S.lookup_update_ne _ _ _ _ (by rw [crgroup]; omega),
      crpres b (by omega) (by omega)]
    simp [S.lookup, lookupNodes_cons, h0]
  · have hclook : (S.mk ((s.fresh, layoutGroupNode l.id) :: s.nodes) (s.fresh + 1)
        s.disposed).lookup s.fresh = some (layoutGroupNode l.id) := by
      simp [S.lookup, lookupNodes_cons]
    obtain ⟨ch, hch⟩ := crnode _ hclook
    refine ⟨{ layoutGroupNode l.id with children := ch, isMaster := some false },
      ?_, rfl, rfl⟩
    rw [crgroup, S.lookup_update_self, hch]
    rfl
  · intro rm hrm
    rcases crmem rm hrm with hmem | ⟨hf, hw⟩
    · simp at hmem
    · refine ⟨?_, ?_⟩
      · intro g hgm
        obtain ⟨h1, h2⟩ := hf g hgm
        exact ⟨by omega, by omega⟩
      · intro w hwm
        obtain ⟨h1, h2, h3, h4⟩ := hw w hwm
        have hst := S.lookup_update_ne
          (Layout3D.cloneRoomsInto
            { id := l.id, description := l.description, rooms := [],
              cameraView := l.cameraView, group := s.fresh } l.rooms
            (S.mk ((s.fresh, layoutGroupNode l.id) :: s.nodes) (s.fresh + 1)
              s.disposed)).2
          (Layout3D.cloneRoomsInto
            { id := l.id, description := l.description, rooms := [],
              cameraView := l.cameraView, group := s.fresh } l.rooms
            (S.mk ((s.fresh, layoutGroupNode l.id) :: s.nodes) (s.fresh + 1)
              s.disposed)).1.group
          w.mesh
          (fun nd => { nd with isMaster := some false })
          (by rw [crgroup]; omega)
        refine ⟨?_, ?_, by omega, by omega⟩
        · rw [S.geomOf_congr _ _ _ hst]; exact h1
        · rw [S.matOf_congr _ _ _ hst]; exact h2

/-! ## Claim theorems -/

/-- C9: for every Layout `l` (master or not) and any store state, the
result of `l.clone()` keeps `l`'s identifier unchanged and its root
group carries `userData.isMaster = false`. -/
theorem clone_isMaster_false_id_inherited (l : Layout3D) (s : S) :
    (Layout3D.clone l s).1.id = l.id ∧
    ((Layout3D.clone l s).2.lookup (Layout3D.clone l s).1.group).map
      (fun nd => nd.isMaster) = some (some false) := by
  obtain ⟨-, hid, -, ⟨nd, hnd, hm, -⟩, -⟩ := Layout3D.layout_clone_facts l s
  refine ⟨hid, ?_⟩
  rw [hnd]
  simp [hm]

/-- C5: `Room.clone()` always produces exactly 4 walls whose
width/height/depth are the fixed function of the room's width and depth
(wall height `3.5`, thickness `0.5`), whatever wall list the source
room currently holds; and every wall mesh is freshly allocated (its
address is new relative to the pre-clone store), never copied from the
source. -/
theorem room_clone_regenerates_walls (r : Room) (s : S) :
    (Room.clone r s).1.walls.length = 4 ∧
    (Room.clone r s).1.walls.map (fun w => (w.width, w.height, w.depth)) =
      [(r.width, 7/2, 1/2), (r.width, 7/2, 1/2),
       (1/2, 7/2, r.depth), (1/2, 7/2, r.depth)] ∧
    (∀ w ∈ (Room.clone r s).1.walls, s.fresh ≤ w.mesh) := by
  obtain ⟨-, -, ffwalls, -, -⟩ :=
    Room.cloneFurnInto_facts r.furnitureList (Room.create r.name r.width r.depth s).1
      (Room.create r.name r.width r.depth s).2
  have hval : (Room.clone r s).1 =
      (Room.cloneFurnInto (Room.create r.name r.width r.depth s).1 r.furnitureList
        (Room.create r.name r.width r.depth s).2).1 := by
    simp only [Room.clone]
  rw [hval, ffwalls, Room.create_room]
  refine ⟨rfl, rfl, ?_⟩
  intro w hw
  simp only [List.mem_cons, List.not_mem_nil, or_false] at hw
  rcases hw with rfl | rfl | rfl | rfl <;> simp

/-- C4: two session clones of the same master layout share the wall
geometry and material handles: the wall at the same position of the
same room in either clone carries the process-wide `Wall.geometry` /
`Wall.material` singletons, so the handles are reference-equal, never
duplicated. -/
theorem wall_resources_shared_across_clones
    (L : Layout3D) (s : S) (c1 : Layout3D) (s1 : S) (c2 : Layout3D) (s2 : S)
    (h1 : Layout3D.clone L s = (c1, s1))
    (h2 : Layout3D.clone L s1 = (c2, s2))
    (i j : Nat) (r1 r2 : Room) (w1 w2 : Wall)
    (hr1 : c1.rooms.get? i = some r1) (hw1 : r1.walls.get? j = some w1)
    (hr2 : c2.rooms.get? i = some r2) (hw2 : r2.walls.get? j = some w2) :
    S.geomOf s2 w1.mesh = some Res.wallGeometry ∧
    S.geomOf s2 w2.mesh = some Res.wallGeometry ∧
    S.geomOf s2 w1.mesh = S.geomOf s2 w2.mesh ∧
    S.matOf s2 w1.mesh = some Res.wallMaterial ∧
    S.matOf s2 w2.mesh = some Res.wallMaterial ∧
    S.matOf s2 w1.mesh = S.matOf s2 w2.mesh := by
  obtain ⟨cmono1, -, -, -, crooms1⟩ := Layout3D.layout_clone_facts L s
  obtain ⟨-, -, cpres2, -, crooms2⟩ := Layout3D.layout_clone_facts L s1
  rw [h1] at cmono1 crooms1
  rw [h2] at cpres2 crooms2
  have hm1 : r1 ∈ c1.rooms := List.get?_mem hr1
  have hm2 : r2 ∈ c2.rooms := List.get?_mem hr2
  obtain ⟨-, hwalls1⟩ := crooms1 r1 hm1
  obtain ⟨-, hwalls2⟩ := crooms2 r2 hm2
  obtain ⟨hg1, hmat1, -, hlt1⟩ := hwalls1 w1 (List.get?_mem hw1)
  obtain ⟨hg2, hmat2, -, -⟩ := hwalls2 w2 (List.get?_mem hw2)
  have hst : S.lookup s2 w1.mesh = S.lookup s1 w1.mesh := cpres2 w1.mesh hlt1
  have hge1 : S.geomOf s2 w1.mesh = some Res.wallGeometry := by
    rw [S.geomOf_congr _ _ _ hst]; exact hg1
  have hma1 : S.matOf s2 w1.mesh = some Res.wallMaterial := by
    rw [S.matOf_congr _ _ _ hst]; exact hmat1
  exact ⟨hge1, hg2, by rw [hge1, hg2], hma1, hmat2, by rw [hma1, hmat2]⟩

/-- C1: session isolation.  For a master layout `L` registered in the
registry (all of whose nodes predate the current store frontier) with a
furniture `F` at position `(i, j)`, the session produced by
`getSessionClone` holds a furniture `F2` at the same position whose
root is a fresh node; calling `setPosition` on the session's copy
leaves the master furniture's node (its whole transform) unchanged,
and mutating the master's furniture leaves the session copy's node
unchanged. -/
theorem session_isolation
    (reg : LayoutRegistry) (id : String) (L : Layout3D) (s : S)
    (hlook : LayoutRegistry.find reg id = some L)
    (session : Layout3D) (s1 : S)
    (hclone : LayoutRegistry.getSessionClone reg id s =
      Except.ok (session, s1))
    (i j : Nat) (F F2 : Furniture)
    (hF : (L.rooms.get? i).bind (fun r => r.furnitureList.get? j) = some F)
    (hF2 : (session.rooms.get? i).bind (fun r => r.furnitureList.get? j) = some F2)
    (hb : F.root < s.fresh)
    (x y z : Rat) :
    S.lookup (Furniture.setPosition F2 x y z s1) F.root = S.lookup s F.root ∧
    S.lookup (Furniture.setPosition F x y z s1) F2.root = S.lookup s1 F2.root := by
  have hcl : (session, s1) = Layout3D.clone L s := by
    unfold LayoutRegistry.getSessionClone at hclone
    rw [hlook] at hclone
    exact (Except.ok.injEq _ _).mp hclone.symm
  have hses : session = (Layout3D.clone L s).1 := by rw [← hcl]
  have hs1 : s1 = (Layout3D.clone L s).2 := by rw [← hcl]
  obtain ⟨-, -, cpres, -, crooms⟩ := Layout3D.layout_clone_facts L s
  obtain ⟨room2, hroom2, hF2j⟩ :
      ∃ room2, session.rooms.get? i = some room2 ∧
        room2.furnitureList.get? j = some F2 := by
    cases hri : session.rooms.get? i with
    | none => rw [hri] at hF2; simp at hF2
    | some rm => exact ⟨rm, rfl, by rw [hri] at hF2; simpa using hF2⟩
  have hmem : room2 ∈ (Layout3D.clone L s).1.rooms := by
    rw [← hses]; exact List.get?_mem hroom2
  obtain ⟨hfurn, -⟩ := crooms room2 hmem
  obtain ⟨hge, -⟩ := hfurn F2 (List.get?_mem hF2j)
  have hne : F.root ≠ F2.root := by omega
  constructor
  · unfold Furniture.setPosition
    rw [S.lookup_update_ne _ _ _ _ hne, hs1, cpres F.root hb]
  · unfold Furniture.setPosition
    rw [S.lookup_update_ne _ _ _ _ (Ne.symm hne)]

/-! ### Furniture.loadModel effects -/

theorem Furniture.loadModel_skip (fetch : String → Except AssetFetchError GltfAsset)
    (f : Furniture) (s : S) (h : jsTruthy f.modelUrl = false) :
    Furniture.loadModel fetch f s = (f, s) := by
  simp [Furniture.loadModel, Furniture.loadModelBody, h]

theorem Furniture.loadModel_fetch_fail (fetch : String → Except AssetFetchError GltfAsset)
    (f : Furniture) (s : S) (url : String) (e : AssetFetchError)
    (hurl : f.modelUrl = some url) (ht : jsTruthy f.modelUrl = true)
    (hf : fetch url = Except.error e) :
    Furniture.loadModel fetch f s = (f, s) := by
  have ht' : jsTruthy (some url) = true := by rw [← hurl]; exact ht
  simp [Furniture.loadModel, Furniture.loadModelBody, hurl, ht', hf]

theorem Furniture.loadModelBody_success (fetch : String → Except AssetFetchError GltfAsset)
    (f : Furniture) (s : S) (url : String) (g : GltfAsset)
    (hurl : f.modelUrl = some url) (ht : jsTruthy f.modelUrl = true)
    (hf : fetch url = Except.ok g) :
    Furniture.loadModelBody fetch f s =
      Except.ok ({ f with mesh := s.fresh + 1 },
       (S.mk ((s.fresh + 1, normalizedModelNode g s.fresh) :: s.nodes) (s.fresh + 2)
          s.disposed).update f.root
         (fun nd =>
           { nd with children := nd.children.filter (· ≠ f.mesh) ++ [s.fresh + 1] })) := by
  have ht' : jsTruthy (some url) = true := by rw [← hurl]; exact ht
  simp [Furniture.loadModelBody, hurl, ht', hf, S.genId, S.alloc, Nat.add_assoc]

theorem Furniture.loadModel_success (fetch : String → Except AssetFetchError GltfAsset)
    (f : Furniture) (s : S) (url : String) (g : GltfAsset)
    (hurl : f.modelUrl = some url) (ht : jsTruthy f.modelUrl = true)
    (hf : fetch url = Except.ok g) :
    Furniture.loadModel fetch f s =
      ({ f with mesh := s.fresh + 1 },
       (S.mk ((s.fresh + 1, normalizedModelNode g s.fresh) :: s.nodes) (s.fresh + 2)
          s.disposed).update f.root
         (fun nd =>
           { nd with children := nd.children.filter (· ≠ f.mesh) ++ [s.fresh + 1] })) := by
  unfold Furniture.loadModel
  rw [Furniture.loadModelBody_success fetch f s url g hurl ht hf]

theorem Furniture.loadModel_mono (fetch : String → Except AssetFetchError GltfAsset)
    (f : Furniture) (s : S) : s.fresh ≤ (Furniture.loadModel fetch f s).2.fresh := by
  cases hjt : jsTruthy f.modelUrl
  · rw [Furniture.loadModel_skip fetch f s hjt]
  · cases hu : f.modelUrl with
    | none => rw [hu] at hjt; simp [jsTruthy] at hjt
    | some url =>
      cases hf : fetch url with
      | error e =>
        rw [Furniture.loadModel_fetch_fail fetch f s url e hu hjt hf]
      | ok g =>
        rw [Furniture.loadModel_success fetch f s url g hu hjt hf]
        rw [S.update_fresh]
        dsimp only
        omega

theorem Furniture.loadModel_pres (fetch : String → Except AssetFetchError GltfAsset)
    (f : Furniture) (s : S) (b : Nat) (hb : b < s.fresh) (hbr : b ≠ f.root) :
    (Furniture.loadModel fetch f s).2.lookup b = s.lookup b := by
  cases hjt : jsTruthy f.modelUrl
  · rw [Furniture.loadModel_skip fetch f s hjt]
  · cases hu : f.modelUrl with
    | none => rw [hu] at hjt; simp [jsTruthy] at hjt
    | some url =>
      cases hf : fetch url with
      | error e =>
        rw [Furniture.loadModel_fetch_fail fetch f s url e hu hjt hf]
      | ok g =>
        rw [Furniture.loadModel_success fetch f s url g hu hjt hf]
        rw [S.lookup_update_ne _ _ _ _ hbr]
        exact lookupNodes_cons_ne _ _ _ (by omega)

theorem Furniture.loadModel_success_root (fetch : String → Except AssetFetchError GltfAsset)
    (f : Furniture) (s : S) (url : String) (g : GltfAsset)
    (hurl : f.modelUrl = some url) (ht : jsTruthy f.modelUrl = true)
    (hf : fetch url = Except.ok g) (hroot : f.root < s.fresh) :
    (Furniture.loadModel fetch f s).2.lookup f.root =
      (s.lookup f.root).map (fun nd =>
        { nd with children := nd.children.filter (· ≠ f.mesh) ++ [s.fresh + 1] }) := by
  rw [Furniture.loadModel_success fetch f s url g hurl ht hf, S.lookup_update_self]
  have h : S.lookup (S.mk ((s.fresh + 1, normalizedModelNode g s.fresh) :: s.nodes)
      (s.fresh + 2) s.disposed) f.root = s.lookup f.root :=
    lookupNodes_cons_ne _ _ _ (by omega)
  rw [h]

theorem Furniture.loadModel_success_node (fetch : String → Except AssetFetchError GltfAsset)
    (f : Furniture) (s : S) (url : String) (g : GltfAsset)
    (hurl : f.modelUrl = some url) (ht : jsTruthy f.modelUrl = true)
    (hf : fetch url = Except.ok g) (hroot : f.root < s.fresh) :
    (Furniture.loadModel fetch f s).2.lookup (s.fresh + 1) =
      some (normalizedModelNode g s.fresh) := by
  rw [Furniture.loadModel_success fetch f s url g hurl ht hf,
    S.lookup_update_ne _ _ _ _ (by omega)]
  simp [S.lookup, lookupNodes_cons]

theorem loadFurnList_facts (fetch : String → Except AssetFetchError GltfAsset) :
    ∀ (fs : List Furniture) (s : S),
    List.Pairwise (fun f g => f.root ≠ g.root) fs →
    (∀ f ∈ fs, f.root < s.fresh) →
    s.fresh ≤ (loadFurnList fetch fs s).2.fresh ∧
    (loadFurnList fetch fs s).1.length = fs.length ∧
    (∀ b, b < s.fresh → (∀ f ∈ fs, b ≠ f.root) →
      (loadFurnList fetch fs s).2.lookup b = s.lookup b) ∧
    (∀ j f, fs.get? j = some f →
      ((jsTruthy f.modelUrl = false →
          (loadFurnList fetch fs s).1.get? j = some f ∧
          (loadFurnList fetch fs s).2.lookup f.root = s.lookup f.root) ∧
       (∀ url e, f.modelUrl = some url → fetch url = Except.error e →
          (loadFurnList fetch fs s).1.get? j = some f ∧
          (loadFurnList fetch fs s).2.lookup f.root = s.lookup f.root) ∧
       (∀ url g, f.modelUrl = some url → jsTruthy f.modelUrl = true →
          fetch url = Except.ok g →
          ∃ addr lid,
            (loadFurnList fetch fs s).1.get? j = some { f with mesh := addr } ∧
            s.fresh ≤ addr ∧ addr < (loadFurnList fetch fs s).2.fresh ∧
            (loadFurnList fetch fs s).2.lookup addr =
              some (normalizedModelNode g lid) ∧
            (loadFurnList fetch fs s).2.lookup f.root =
              (s.lookup f.root).map (fun nd =>
                { nd with children :=
                  nd.children.filter (· ≠ f.mesh) ++ [addr] })))) := by
  intro fs
  induction fs with
  | nil =>
    intro s _ _
    refine ⟨Nat.le_refl _, rfl, fun b _ _ => rfl, ?_⟩
    intro j f hj
    simp at hj
  | cons f0 rest ih =>
    intro s hpw hb
    have hhead : ∀ g ∈ rest, f0.root ≠ g.root := (List.pairwise_cons.mp hpw).1
    have hpwrest := (List.pairwise_cons.mp hpw).2
    have hb0 : f0.root < s.fresh := hb f0 (List.mem_cons_self _ _)
    have hbrest : ∀ f ∈ rest, f.root < s.fresh :=
      fun f hf => hb f (List.mem_cons_of_mem _ hf)
    have hm1 : s.fresh ≤ (Furniture.loadModel fetch f0 s).2.fresh :=
      Furniture.loadModel_mono fetch f0 s
    obtain ⟨ihmono, ihlen, ihpres, ihpoint⟩ :=
      ih (Furniture.loadModel fetch f0 s).2 hpwrest
        (fun f hf => Nat.lt_of_lt_of_le (hbrest f hf) hm1)
    simp only [loadFurnList]
    refine ⟨by omega, by simp [ihlen], ?_, ?_⟩
    · intro b hbf hnr
      rw [ihpres b (by omega) (fun f hf => hnr f (List.mem_cons_of_mem _ hf)),
        Furniture.loadModel_pres fetch f0 s b hbf (hnr f0 (List.mem_cons_self _ _))]
    · intro j f hj
      cases j with
      | zero =>
        simp only [List.get?] at hj
        injection hj with hj
        subst hj
        refine ⟨?_, ?_, ?_⟩
        · intro hsk
          have hE := Furniture.loadModel_skip fetch f0 s hsk
          simp only [hE] at ihpres ⊢
          exact ⟨rfl, ihpres f0.root hb0 (fun g hg => hhead g hg)⟩
        · intro url e hurl hf
          cases hjt : jsTruthy f0.modelUrl
          · have hE := Furniture.loadModel_skip fetch f0 s hjt
            simp only [hE] at ihpres ⊢
            exact ⟨rfl, ihpres f0.root hb0 (fun g hg => hhead g hg)⟩
          · have hE := Furniture.loadModel_fetch_fail fetch f0 s url e hurl hjt hf
            simp only [hE] at ihpres ⊢
            exact ⟨rfl, ihpres f0.root hb0 (fun g hg => hhead g hg)⟩
        · intro url g hurl hjt hok
          have hE := Furniture.loadModel_success fetch f0 s url g hurl hjt hok
          have hfr2 : ((S.mk ((s.fresh + 1, normalizedModelNode g s.fresh) :: s.nodes)
              (s.fresh + 2) s.disposed).update f0.root
              (fun nd =>
                { nd with
                  children := nd.children.filter (· ≠ f0.mesh) ++ [s.fresh + 1] })).fresh
              = s.fresh + 2 := by
            rw [S.update_fresh]
          refine ⟨s.fresh + 1, s.fresh, ?_, by omega, ?_, ?_, ?_⟩
          · simp only [hE]
            rfl
          · simp only [hE] at ihmono ⊢
            rw [hfr2] at ihmono
            omega
          · simp only [hE] at ihpres ⊢
            rw [ihpres (s.fresh + 1) (by rw [hfr2]; omega)
              (fun q hq => by have := hbrest q hq; omega)]
            rw [S.lookup_update_ne _ _ _ _ (by omega)]
            simp [S.lookup, lookupNodes_cons]
          · simp only [hE] at ihpres ⊢
            rw [ihpres f0.root (by rw [hfr2]; omega) (fun q hq => hhead q hq)]
            rw [S.lookup_update_self]
            have hlk : S.lookup (S.mk ((s.fresh + 1, normalizedModelNode g s.fresh)
                :: s.nodes) (s.fresh + 2) s.disposed) f0.root = s.lookup f0.root :=
              lookupNodes_cons_ne _ _ _ (by omega)
            rw [hlk]
      | succ j' =>
        simp only [List.get?] at hj ⊢
        have hfmem : f ∈ rest := List.get?_mem hj
        have hfroot : f.root < s.fresh := hbrest f hfmem
        have hfne : f.root ≠ f0.root := Ne.symm (hhead f hfmem)
        have hpres1 : (Furniture.loadModel fetch f0 s).2.lookup f.root =
            s.lookup f.root :=
          Furniture.loadModel_pres fetch f0 s f.root hfroot hfne
        obtain ⟨ihskip, iherr, ihok⟩ := ihpoint j' f hj
        refine ⟨?_, ?_, ?_⟩
        · intro hsk
          obtain ⟨h1, h2⟩ := ihskip hsk
          exact ⟨h1, by rw [h2, hpres1]⟩
        · intro url e hurl hf
          obtain ⟨h1, h2⟩ := iherr url e hurl hf
          exact ⟨h1, by rw [h2, hpres1]⟩
        · intro url g hurl hjt hok
          obtain ⟨addr, lid, h1, h2, h3, h4, h5⟩ := ihok url g hurl hjt hok
          exact ⟨addr, lid, h1, by omega, h3, h4, by rw [h5, hpres1]⟩

theorem mem_roomsFurnRoots : ∀ (rs : List Room) (r : Room) (f : Furniture),
    r ∈ rs → f ∈ r.furnitureList → f.root ∈ roomsFurnRoots rs := by
  intro rs
  induction rs with
  | nil => intro r f hr _; simp at hr
  | cons r0 rest ih =>
    intro r f hr hf
    simp only [roomsFurnRoots, List.mem_append]
    rcases List.mem_cons.mp hr with rfl | hr
    · exact Or.inl (List.mem_map.mpr ⟨f, hf, rfl⟩)
    · exact Or.inr (ih r f hr hf)

theorem loadRooms_facts (fetch : String → Except AssetFetchError GltfAsset) :
    ∀ (rs : List Room) (s : S),
    (roomsFurnRoots rs).Pairwise (· ≠ ·) →
    (∀ a ∈ roomsFurnRoots rs, a < s.fresh) →
    s.fresh ≤ (loadRooms fetch rs s).2.fresh ∧
    (loadRooms fetch rs s).1.length = rs.length ∧
    (∀ b, b < s.fresh → b ∉ roomsFurnRoots rs →
      (loadRooms fetch rs s).2.lookup b = s.lookup b) ∧
    (∀ i r, rs.get? i = some r → ∃ fl,
      (loadRooms fetch rs s).1.get? i = some { r with furnitureList := fl } ∧
      fl.length = r.furnitureList.length ∧
      (∀ j f, r.furnitureList.get? j = some f →
        ((jsTruthy f.modelUrl = false →
            fl.get? j = some f ∧
            (loadRooms fetch rs s).2.lookup f.root = s.lookup f.root) ∧
         (∀ url e, f.modelUrl = some url → fetch url = Except.error e →
            fl.get? j = some f ∧
            (loadRooms fetch rs s).2.lookup f.root = s.lookup f.root) ∧
         (∀ url g, f.modelUrl = some url → jsTruthy f.modelUrl = true →
            fetch url = Except.ok g →
            ∃ addr lid, fl.get? j = some { f with mesh := addr } ∧
              s.fresh ≤ addr ∧ addr < (loadRooms fetch rs s).2.fresh ∧
              (loadRooms fetch rs s).2.lookup addr =
                some (normalizedModelNode g lid) ∧
              (loadRooms fetch rs s).2.lookup f.root =
                (s.lookup f.root).map (fun nd =>
                  { nd with children :=
                    nd.children.filter (· ≠ f.mesh) ++ [addr] }))))) := by
  intro rs
  induction rs with
  | nil =>
    intro s _ _
    refine ⟨Nat.le_refl _, rfl, fun b _ _ => rfl, ?_⟩
    intro i r hi
    simp at hi
  | cons r0 rest ih =>
    intro s hpw hb
    rw [roomsFurnRoots] at hpw hb
    obtain ⟨hpwA, hpwB, hdisj⟩ := List.pairwise_append.mp hpw
    have hpw1 : List.Pairwise (fun f g => f.root ≠ g.root) r0.furnitureList := by
      rw [furnRoots] at hpwA
      exact (List.pairwise_map).mp hpwA
    have hbA : ∀ f ∈ r0.furnitureList, f.root < s.fresh := by
      intro f hf
      exact hb f.root (List.mem_append.mpr (Or.inl
        (List.mem_map.mpr ⟨f, hf, rfl⟩)))
    have hbB : ∀ a ∈ roomsFurnRoots rest, a < s.fresh := by
      intro a ha
      exact hb a (List.mem_append.mpr (Or.inr ha))
    obtain ⟨lfmono, lflen, lfpres, lfpoint⟩ :=
      loadFurnList_facts fetch r0.furnitureList s hpw1 hbA
    obtain ⟨ihmono, ihlen, ihpres, ihpoint⟩ :=
      ih (loadFurnList fetch r0.furnitureList s).2 hpwB
        (fun a ha => Nat.lt_of_lt_of_le (hbB a ha) lfmono)
    simp only [loadRooms]
    refine ⟨by omega, by simp [ihlen], ?_, ?_⟩
    · intro b hbf hnm
      have hnmA : b ∉ furnRoots r0.furnitureList :=
        fun hmem => hnm (List.mem_append.mpr (Or.inl hmem))
      have hnmB : b ∉ roomsFurnRoots rest :=
        fun hmem => hnm (List.mem_append.mpr (Or.inr hmem))
      rw [ihpres b (by omega) hnmB, lfpres b hbf ?hroots]
      case hroots =>
        intro f hf heq
        exact hnmA (by rw [furnRoots]; exact List.mem_map.mpr ⟨f, hf, heq.symm ▸ rfl⟩)
    · intro i r hi
      cases i with
      | zero =>
        simp only [List.get?] at hi
        injection hi with hi
        subst hi
        refine ⟨(loadFurnList fetch r0.furnitureList s).1, rfl, lflen, ?_⟩
        intro j f hj
        have hfmem : f ∈ r0.furnitureList := List.get?_mem hj
        have hfroot : f.root < s.fresh := hbA f hfmem
        have hfrootA : f.root ∈ furnRoots r0.furnitureList := by
          rw [furnRoots]; exact List.mem_map.mpr ⟨f, hfmem, rfl⟩
        have hfnotB : f.root ∉ roomsFurnRoots rest := by
          intro hmem
          exact (hdisj f.root hfrootA f.root hmem) rfl
        obtain ⟨lfskip, lferr, lfok⟩ := lfpoint j f hj
        refine ⟨?_, ?_, ?_⟩
        · intro hsk
          obtain ⟨h1, h2⟩ := lfskip hsk
          refine ⟨h1, ?_⟩
          rw [ihpres f.root (by omega) hfnotB, h2]
        · intro url e hurl hf
          obtain ⟨h1, h2⟩ := lferr url e hurl hf
          refine ⟨h1, ?_⟩
          rw [ihpres f.root (by omega) hfnotB, h2]
        · intro url g hurl hjt hok
          obtain ⟨addr, lid, h1, h2, h3, h4, h5⟩ := lfok url g hurl hjt hok
          have haddrB : addr ∉ roomsFurnRoots rest := by
            intro hmem
            have := hbB addr hmem
            omega
          refine ⟨addr, lid, h1, h2, by omega, ?_, ?_⟩
          · rw [ihpres addr h3 haddrB, h4]
          · rw [ihpres f.root (by omega) hfnotB, h5]
      | succ i' =>
        simp only [List.get?] at hi ⊢
        obtain ⟨fl, h1, h2, h3⟩ := ihpoint i' r hi
        have hrmem : r ∈ rest := List.get?_mem hi
        refine ⟨fl, h1, h2, ?_⟩
        intro j f hj
        have hfmem : f ∈ r.furnitureList := List.get?_mem hj
        have hfrootB : f.root ∈ roomsFurnRoots rest :=
          mem_roomsFurnRoots rest r f hrmem hfmem
        have hfroot : f.root < s.fresh := hbB f.root hfrootB
        have hpres1 : (loadFurnList fetch r0.furnitureList s).2.lookup f.root =
            s.lookup f.root := by
          apply lfpres f.root hfroot
          intro q hq heq
          exact (hdisj q.root (by rw [furnRoots]; exact List.mem_map.mpr ⟨q, hq, rfl⟩)
            f.root hfrootB) heq.symm
        obtain ⟨ihskip, iherr, ihok⟩ := h3 j f hj
        refine ⟨?_, ?_, ?_⟩
        · intro hsk
          obtain ⟨g1, g2⟩ := ihskip hsk
          exact ⟨g1, by rw [g2, hpres1]⟩
        · intro url e hurl hf
          obtain ⟨g1, g2⟩ := iherr url e hurl hf
          exact ⟨g1, by rw [g2, hpres1]⟩
        · intro url g hurl hjt hok
          obtain ⟨addr, lid, g1, g2, g3, g4, g5⟩ := ihok url g hurl hjt hok
          exact ⟨addr, lid, g1, by omega, g3, g4, by rw [g5, hpres1]⟩

/-- C3: best-effort hydration.  `loadAssets` is total — each furniture's
load runs inside `try/catch`, so no fetch failure escapes — and the
theorem is quantified over an arbitrary fetch oracle, including ones
that fail on every URL; the result below therefore holds whatever mix
of successes and failures occurs ("resolves without throwing").  The
join processes every furniture of every room exactly once (`Promise.all`
over all of them), so the conclusion accounts pointwise for each slot:
a furniture with no asset reference or a failed fetch is returned
unchanged with the node under its root untouched (placeholder subtree
retained); a furniture whose fetch succeeds has its placeholder removed
from its root's children and the freshly normalized model attached in
its place. -/
theorem loadAssets_best_effort (fetch : String → Except AssetFetchError GltfAsset)
    (l : Layout3D) (s : S)
    (hpw : (roomsFurnRoots l.rooms).Pairwise (· ≠ ·))
    (hb : ∀ a ∈ roomsFurnRoots l.rooms, a < s.fresh) :
    (Layout3D.loadAssets fetch l s).1.rooms.length = l.rooms.length ∧
    (∀ i r, l.rooms.get? i = some r → ∃ fl,
      (Layout3D.loadAssets fetch l s).1.rooms.get? i =
        some { r with furnitureList := fl } ∧
      fl.length = r.furnitureList.length ∧
      (∀ j f, r.furnitureList.get? j = some f →
        ((jsTruthy f.modelUrl = false →
            fl.get? j = some f ∧
            (Layout3D.loadAssets fetch l s).2.lookup f.root = s.lookup f.root) ∧
         (∀ url e, f.modelUrl = some url → fetch url = Except.error e →
            fl.get? j = some f ∧
            (Layout3D.loadAssets fetch l s).2.lookup f.root = s.lookup f.root) ∧
         (∀ url g, f.modelUrl = some url → jsTruthy f.modelUrl = true →
            fetch url = Except.ok g →
            ∃ addr lid, fl.get? j = some { f with mesh := addr } ∧
              s.fresh ≤ addr ∧
              (Layout3D.loadAssets fetch l s).2.lookup addr =
                some (normalizedModelNode g lid) ∧
              (Layout3D.loadAssets fetch l s).2.lookup f.root =
                (s.lookup f.root).map (fun nd =>
                  { nd with children :=
                    nd.children.filter (· ≠ f.mesh) ++ [addr] }))))) := by
  have h1 : (Layout3D.loadAssets fetch l s).1.rooms = (loadRooms fetch l.rooms s).1 := rfl
  have h2 : (Layout3D.loadAssets fetch l s).2 = (loadRooms fetch l.rooms s).2 := rfl
  obtain ⟨-, hlen, -, hpoint⟩ := loadRooms_facts fetch l.rooms s hpw hb
  rw [h1, h2]
  refine ⟨hlen, ?_⟩
  intro i r hi
  obtain ⟨fl, g1, g2, g3⟩ := hpoint i r hi
  refine ⟨fl, g1, g2, ?_⟩
  intro j f hj
  obtain ⟨b1, b2, b3⟩ := g3 j f hj
  refine ⟨b1, b2, ?_⟩
  intro url g hurl hjt hok
  obtain ⟨addr, lid, c1, c2, c3, c4, c5⟩ := b3 url g hurl hjt hok
  exact ⟨addr, lid, c1, c2, c4, c5⟩

/-- C10: degenerate bounding box.  When the fetched asset's maximum
bounding-box dimension is `0`, the guard `if (maxDim > 0)` skips the
scale step entirely — the stored model node keeps the asset's scale
unchanged (no division by `maxDim` is ever evaluated, `loadModel` being
total) — while the placeholder is still removed from the furniture root
and the model attached in its place. -/
theorem loadModel_degenerate_box (fetch : String → Except AssetFetchError GltfAsset)
    (f : Furniture) (s : S) (url : String) (g : GltfAsset)
    (hurl : f.modelUrl = some url) (ht : jsTruthy f.modelUrl = true)
    (hf : fetch url = Except.ok g) (hroot : f.root < s.fresh)
    (hdeg : g.maxDim = 0) :
    (Furniture.loadModel fetch f s).1.mesh = s.fresh + 1 ∧
    (Furniture.loadModel fetch f s).2.lookup (s.fresh + 1) =
      some (normalizedModelNode g s.fresh) ∧
    (normalizedModelNode g s.fresh).scale = g.scale ∧
    (Furniture.loadModel fetch f s).2.lookup f.root =
      (s.lookup f.root).map (fun nd =>
        { nd with children := nd.children.filter (· ≠ f.mesh) ++ [s.fresh + 1] }) := by
  refine ⟨?_, ?_, ?_, ?_⟩
  · rw [Furniture.loadModel_success fetch f s url g hurl ht hf]
  · exact Furniture.loadModel_success_node fetch f s url g hurl ht hf hroot
  · simp [normalizedModelNode, hdeg]
  · exact Furniture.loadModel_success_root fetch f s url g hurl ht hf hroot

/-- C10 witness: the degenerate point asset is loaded into `c10Furn`;
no scale factor is applied and the placeholder is replaced. -/
theorem loadModel_degenerate_box_witness :
    (c10Furn.modelUrl = some "plant.glb" ∧ jsTruthy c10Furn.modelUrl = true ∧
      fetchPoint "plant.glb" = Except.ok pointAsset ∧ c10Furn.root < c10State.fresh ∧
      pointAsset.maxDim = 0) ∧
    ((Furniture.loadModel fetchPoint c10Furn c10State).1.mesh = c10State.fresh + 1 ∧
     (Furniture.loadModel fetchPoint c10Furn c10State).2.lookup (c10State.fresh + 1) =
       some (normalizedModelNode pointAsset c10State.fresh) ∧
     (normalizedModelNode pointAsset c10State.fresh).scale = pointAsset.scale ∧
     (Furniture.loadModel fetchPoint c10Furn c10State).2.lookup c10Furn.root =
       (c10State.lookup c10Furn.root).map (fun nd =>
         { nd with children :=
           nd.children.filter (· ≠ c10Furn.mesh) ++ [c10State.fresh + 1] })) := by
  have hdeg : pointAsset.maxDim = 0 := by
    norm_num [GltfAsset.maxDim, GltfAsset.boxSize, GltfAsset.boxMin, GltfAsset.boxMax,
      axisMin, axisMax, ratMin, ratMax, pointAsset, Vec3.sub]
  exact ⟨⟨rfl, by decide, rfl, by decide, hdeg⟩,
    loadModel_degenerate_box fetchPoint c10Furn c10State "plant.glb" pointAsset
      rfl (by decide) rfl (by decide) hdeg⟩

/-- C6 (amended): normalization of a successfully loaded asset with
positive maximum bounding-box dimension `d` multiplies the model's
scale uniformly by exactly `1/d` and translates the model's position by
exactly minus the bounding-box centre (so the box centre sits at the
furniture root's origin before the scale step).  The bounding-box
centre does not in general coincide with the model's internal origin
after the whole normalization — the scale step, applied about the
model's origin after the centring, shifts the box centre off the origin
again (see the counterexample); coincidence holds only for assets
authored with a centred bounding box. -/
theorem loadModel_normalization (fetch : String → Except AssetFetchError GltfAsset)
    (f : Furniture) (s : S) (url : String) (g : GltfAsset)
    (hurl : f.modelUrl = some url) (ht : jsTruthy f.modelUrl = true)
    (hf : fetch url = Except.ok g) (hroot : f.root < s.fresh)
    (hd : 0 < g.maxDim) :
    (Furniture.loadModel fetch f s).1.mesh = s.fresh + 1 ∧
    (Furniture.loadModel fetch f s).2.lookup (s.fresh + 1) =
      some (normalizedModelNode g s.fresh) ∧
    (normalizedModelNode g s.fresh).scale = Vec3.smul (1 / g.maxDim) g.scale ∧
    (normalizedModelNode g s.fresh).position = g.position.sub g.boxCenter := by
  refine ⟨?_, ?_, ?_, rfl⟩
  · rw [Furniture.loadModel_success fetch f s url g hurl ht hf]
  · exact Furniture.loadModel_success_node fetch f s url g hurl ht hf hroot
  · simp [normalizedModelNode, hd]

/-- C6 counterexample: for the `[0, 4]³` asset (authored at the origin,
as GLTF scenes typically are), after `loadModel` completes the stored
model node's measured bounding-box centre is `(-3/2, -3/2, -3/2)` while
the node's internal origin (its position) is `(-2, -2, -2)`: the origin
does not coincide with the box centre — neither the post-normalization
one, nor the asset's original box centre `(2, 2, 2)` — and the box
centre does not sit at the furniture root's origin either. -/
theorem loadModel_center_counterexample :
    (let nd := ((Furniture.loadModel fetchMixed c6Furn c6State).2.lookup
        (c6State.fresh + 1)).getD default
     nd.boxCenter ≠ nd.position ∧ nd.boxCenter ≠ Vec3.zero ∧
     sofaAsset.boxCenter ≠ nd.position) := by
  have hnode := Furniture.loadModel_success_node fetchMixed c6Furn c6State
    "sofa.glb" sofaAsset rfl (by decide) rfl (by decide)
  simp only [hnode, Option.getD_some]
  norm_num [normalizedModelNode, NodeData.boxCenter, NodeData.boxMin, NodeData.boxMax,
    GltfAsset.boxCenter, GltfAsset.boxMin, GltfAsset.boxMax, GltfAsset.maxDim,
    GltfAsset.boxSize, axisMin, axisMax, ratMin, ratMax, sofaAsset, Vec3.sub, Vec3.add,
    Vec3.smul, Vec3.zero, Vec3.one, Vec3.mk.injEq]

/-- C6 witness: loading the `[0, 4]³` asset (maximum dimension 4)
multiplies the scale by exactly `1/4`, giving scale factor `0.25`. -/
theorem loadModel_normalization_witness :
    (c6Furn.modelUrl = some "sofa.glb" ∧ jsTruthy c6Furn.modelUrl = true ∧
      fetchMixed "sofa.glb" = Except.ok sofaAsset ∧ c6Furn.root < c6State.fresh ∧
      0 < sofaAsset.maxDim) ∧
    ((Furniture.loadModel fetchMixed c6Furn c6State).1.mesh = c6State.fresh + 1 ∧
     (Furniture.loadModel fetchMixed c6Furn c6State).2.lookup (c6State.fresh + 1) =
       some (normalizedModelNode sofaAsset c6State.fresh) ∧
     (normalizedModelNode sofaAsset c6State.fresh).scale =
       Vec3.smul (1 / sofaAsset.maxDim) sofaAsset.scale ∧
     (normalizedModelNode sofaAsset c6State.fresh).position =
       sofaAsset.position.sub sofaAsset.boxCenter) ∧
    (normalizedModelNode sofaAsset c6State.fresh).scale = ⟨1/4, 1/4, 1/4⟩ := by
  have hd : (0 : Rat) < sofaAsset.maxDim := by
    norm_num [GltfAsset.maxDim, GltfAsset.boxSize, GltfAsset.boxMin, GltfAsset.boxMax,
      axisMin, axisMax, ratMin, ratMax, sofaAsset, Vec3.sub, Vec3.zero, Vec3.one]
  refine ⟨⟨rfl, by decide, rfl, by decide, hd⟩,
    loadModel_normalization fetchMixed c6Furn c6State "sofa.glb" sofaAsset
      rfl (by decide) rfl (by decide) hd, ?_⟩
  norm_num [normalizedModelNode, GltfAsset.maxDim, GltfAsset.boxSize, GltfAsset.boxMin,
    GltfAsset.boxMax, axisMin, axisMax, ratMin, ratMax, sofaAsset, Vec3.sub, Vec3.zero,
    Vec3.one, Vec3.smul, Vec3.mk.injEq]

/-- C2 counterexample: cloning a placeholder-bearing furniture copies
the inner mesh's `userData` verbatim — the cloned child carries the
source child's `entityId` (`gen 0`) although it is a different node —
and a cloned layout's root group keeps the layout identifier as its
`entityId`, equal to the master's. -/
theorem furniture_clone_child_id_counterexample :
    (let p := Furniture.clone c2Furn c2State
     let cchild := (((p.2.lookup p.1.root).getD default).children.getD 0 0)
     let schild := (((c2State.lookup c2Furn.root).getD default).children.getD 0 0)
     ((p.2.lookup cchild).getD default).entityId =
       ((c2State.lookup schild).getD default).entityId ∧
     ((p.2.lookup cchild).getD default).entityId = some (EntityId.gen 0) ∧
     cchild ≠ schild) ∧
    ((demoS1.lookup demoSession.group).getD default).entityId =
      ((demoState.lookup demoMaster.group).getD default).entityId := by
  constructor
  · exact ⟨by decide, by decide, by decide⟩
  · decide

/-- C2 (amended): identity freshness holds only at the root of each
cloned entity.  For a furniture whose root holds one child (the
placeholder shape left by the constructor), the clone's root node gets
a freshly generated `entityId` distinct from the source root's, while
the cloned child node keeps the source child's `entityId` verbatim
(`SkeletonUtils.clone` copies `userData` by value).  A cloned room's
group and a cloned wall's mesh likewise receive freshly generated ids
distinct from the source's.  A cloned layout's root group instead keeps
the layout identifier — the constructor installs `id`, never a
generated value — so it equals the source's. -/
theorem clone_id_freshness_amended (f : Furniture) (s : S) (rnd mnd : NodeData)
    (m k : Nat)
    (hfr : f.root < s.fresh) (hm : m < s.fresh)
    (hroot : s.lookup f.root = some rnd)
    (hch : rnd.children = [m])
    (hrid : rnd.entityId = some (EntityId.gen k)) (hk : k < s.fresh)
    (hmnd : s.lookup m = some mnd)
    (hmch : mnd.children = []) :
    ((Furniture.clone f s).2.lookup (Furniture.clone f s).1.root) =
      some { rnd with
        children := [s.fresh + 4],
        entityId := some (EntityId.gen (s.fresh + 6)),
        nodeType := "Furniture",
        nameTag := f.name } ∧
    s.fresh + 6 ≠ k ∧
    ((Furniture.clone f s).2.lookup (s.fresh + 4)) =
      some { mnd with children := [] } ∧
    s.fresh + 4 ≠ m ∧
    (∀ (l : Layout3D) (s' : S),
      (((Layout3D.clone l s').2.lookup (Layout3D.clone l s').1.group).getD
        default).entityId = some (EntityId.given l.id)) ∧
    (∀ (r : Room) (sr : S) (kr : Nat),
      ((sr.lookup r.group).getD default).entityId = some (EntityId.gen kr) →
      kr < sr.fresh →
      ∃ e, (((Room.clone r sr).2.lookup (Room.clone r sr).1.group).getD
          default).entityId = some (EntityId.gen e) ∧ e ≠ kr) ∧
    (∀ (w : Wall) (sw : S) (kw : Nat),
      ((sw.lookup w.mesh).getD default).entityId = some (EntityId.gen kw) →
      kw < sw.fresh →
      (((Wall.clone w sw).2.lookup (Wall.clone w sw).1.mesh).getD
        default).entityId = some (EntityId.gen (sw.fresh + 2)) ∧
      sw.fresh + 2 ≠ kw) := by
  have hroot' : lookupNodes s.nodes f.root = some rnd := hroot
  have hm' : lookupNodes s.nodes m = some mnd := hmnd
  have d1 : s.fresh + 1 ≠ f.root := by omega
  have d3 : s.fresh + 3 ≠ f.root := by omega
  have d1m : s.fresh + 1 ≠ m := by omega
  have d3m : s.fresh + 3 ≠ m := by omega
  refine ⟨?_, by omega, ?_, by omega, ?_, ?_, ?_⟩
  · simp [Furniture.clone, Furniture.furn_create_eq, S.cloneTree, S.cloneMany, S.genId,
      S.alloc, S.update, S.lookup, lookupNodes, Nat.add_assoc, hch, hmch,
      hroot', hm', d1, d3, d1m, d3m]
  · simp [Furniture.clone, Furniture.furn_create_eq, S.cloneTree, S.cloneMany, S.genId,
      S.alloc, S.update, S.lookup, lookupNodes, Nat.add_assoc, hch, hmch,
      hroot', hm', d1, d3, d1m, d3m]
  · intro l s'
    obtain ⟨-, -, -, ⟨nd, hnd, -, hid⟩, -⟩ := Layout3D.layout_clone_facts l s'
    rw [hnd]
    simp [hid]
  · intro r sr kr _ hkr
    obtain ⟨e, he, hid⟩ := Room.clone_group_id r sr
    exact ⟨e, hid, by omega⟩
  · intro w sw kw _ hkw
    exact ⟨Wall.clone_mesh_id w sw, by omega⟩

/-- C2 witness: the amended statement at the concrete standalone sofa
furniture (fresh root id, verbatim child id), the demo master layout
(given id kept), the demo room (fresh group id) and its first wall
(fresh mesh id). -/
theorem clone_id_freshness_amended_witness :
    (c2Furn.root < c2State.fresh ∧ (1 : Nat) < c2State.fresh ∧
     c2State.lookup c2Furn.root = some (furnitureRootNode 2 (some "sofa") 1) ∧
     (furnitureRootNode 2 (some "sofa") 1).children = [1] ∧
     (furnitureRootNode 2 (some "sofa") 1).entityId = some (EntityId.gen 2) ∧
     (2 : Nat) < c2State.fresh ∧
     c2State.lookup 1 = some (placeholderMeshNode 0 (some "sofa")) ∧
     (placeholderMeshNode 0 (some "sofa")).children = [] ∧
     ((demoState.lookup demoRoom.group).getD default).entityId =
       some (EntityId.gen 1) ∧
     (1 : Nat) < demoState.fresh ∧
     ((demoState.lookup (demoRoom.walls.getD 0 default).mesh).getD default).entityId =
       some (EntityId.gen 3) ∧
     (3 : Nat) < demoState.fresh) ∧
    (((Furniture.clone c2Furn c2State).2.lookup (Furniture.clone c2Furn c2State).1.root) =
      some { furnitureRootNode 2 (some "sofa") 1 with
        children := [c2State.fresh + 4],
        entityId := some (EntityId.gen (c2State.fresh + 6)),
        nodeType := "Furniture",
        nameTag := c2Furn.name } ∧
     c2State.fresh + 6 ≠ 2 ∧
     ((Furniture.clone c2Furn c2State).2.lookup (c2State.fresh + 4)) =
       some { placeholderMeshNode 0 (some "sofa") with children := [] } ∧
     c2State.fresh + 4 ≠ 1 ∧
     (((Layout3D.clone demoMaster demoState).2.lookup
         (Layout3D.clone demoMaster demoState).1.group).getD default).entityId =
       some (EntityId.given demoMaster.id) ∧
     (∃ e, (((Room.clone demoRoom demoState).2.lookup
           (Room.clone demoRoom demoState).1.group).getD default).entityId =
         some (EntityId.gen e) ∧ e ≠ 1) ∧
     (((Wall.clone (demoRoom.walls.getD 0 default) demoState).2.lookup
         (Wall.clone (demoRoom.walls.getD 0 default) demoState).1.mesh).getD
           default).entityId = some (EntityId.gen (demoState.fresh + 2)) ∧
     demoState.fresh + 2 ≠ 3) := by
  have h := clone_id_freshness_amended c2Furn c2State
    (furnitureRootNode 2 (some "sofa") 1) (placeholderMeshNode 0 (some "sofa")) 1 2
    (by decide) (by decide) (by decide) (by decide) (by decide) (by decide)
    (by decide) (by decide)
  have hw := h.2.2.2.2.2.2 (demoRoom.walls.getD 0 default) demoState 3
    (by decide) (by decide)
  exact ⟨⟨by decide, by decide, by decide, by decide, by decide, by decide, by decide,
      by decide, by decide, by decide, by decide, by decide⟩,
    h.1, h.2.1, h.2.2.1, h.2.2.2.1, h.2.2.2.2.1 demoMaster demoState,
    h.2.2.2.2.2.1 demoRoom demoState 1 (by decide) (by decide), hw.1, hw.2⟩

theorem Layout3D.hydrateRoomsInto_facts : ∀ (ds : List RoomData) (l : Layout3D) (s : S),
    (Layout3D.hydrateRoomsInto l ds s).1.id = l.id ∧
    (Layout3D.hydrateRoomsInto l ds s).1.description = l.description ∧
    (Layout3D.hydrateRoomsInto l ds s).1.rooms.length = l.rooms.length + ds.length := by
  intro ds
  induction ds with
  | nil => intro l s; exact ⟨rfl, rfl, rfl⟩
  | cons d rest ih =>
    intro l s
    simp only [Layout3D.hydrateRoomsInto]
    obtain ⟨h1, h2, h3⟩ := ih
      (Layout3D.addRoom l (Room.fromJSON d s).1 (Room.fromJSON d s).2).1
      (Layout3D.addRoom l (Room.fromJSON d s).1 (Room.fromJSON d s).2).2
    have ha : (Layout3D.addRoom l (Room.fromJSON d s).1 (Room.fromJSON d s).2).1.id
          = l.id ∧
        (Layout3D.addRoom l (Room.fromJSON d s).1 (Room.fromJSON d s).2).1.description
          = l.description ∧
        (Layout3D.addRoom l (Room.fromJSON d s).1
          (Room.fromJSON d s).2).1.rooms.length = l.rooms.length + 1 := by
      rw [Layout3D.addRoom_layout]
      exact ⟨rfl, rfl, by simp⟩
    refine ⟨by rw [h1, ha.1], by rw [h2, ha.2.1], ?_⟩
    rw [h3, ha.2.2]
    simp
    omega

/-- C7 (amended): hydration performs no validation at all.  For every
description record — including one missing every field —
`Layout3D.fromJSON` and `Furniture.fromJSON` return an entity whose
attributes are simply the record's (possibly absent) field values; no
`MalformedDescriptionError` exists anywhere in the code and no failure
channel is present. -/
theorem fromJSON_no_validation (d : LayoutData) (df : FurnitureData) (s s' : S) :
    (Layout3D.fromJSON d s).1.id = d.id ∧
    (Layout3D.fromJSON d s).1.description = d.name ∧
    (Layout3D.fromJSON d s).1.rooms.length = (d.rooms.getD []).length ∧
    (Furniture.fromJSON df s').1.name = df.name ∧
    (Furniture.fromJSON df s').1.ftype = df.ftype ∧
    (Furniture.fromJSON df s').1.modelUrl = df.modelUrl := by
  have hbridge : (Layout3D.fromJSON d s).1 =
      (Layout3D.hydrateRoomsInto
        (match d.cameraView with
          | some cv => { (Layout3D.create d.id d.name s).1 with cameraView := some cv }
          | none => (Layout3D.create d.id d.name s).1)
        (d.rooms.getD []) (Layout3D.create d.id d.name s).2).1 := by
    simp only [Layout3D.fromJSON]
  obtain ⟨h1, h2, h3⟩ := Layout3D.hydrateRoomsInto_facts (d.rooms.getD [])
    (match d.cameraView with
      | some cv => { (Layout3D.create d.id d.name s).1 with cameraView := some cv }
      | none => (Layout3D.create d.id d.name s).1)
    (Layout3D.create d.id d.name s).2
  have hid : (match d.cameraView with
      | some cv => { (Layout3D.create d.id d.name s).1 with cameraView := some cv }
      | none => (Layout3D.create d.id d.name s).1).id = d.id := by
    cases d.cameraView <;> simp [Layout3D.layout_create_eq]
  have hdesc : (match d.cameraView with
      | some cv => { (Layout3D.create d.id d.name s).1 with cameraView := some cv }
      | none => (Layout3D.create d.id d.name s).1).description = d.name := by
    cases d.cameraView <;> simp [Layout3D.layout_create_eq]
  have hrooms : (match d.cameraView with
      | some cv => { (Layout3D.create d.id d.name s).1 with cameraView := some cv }
      | none => (Layout3D.create d.id d.name s).1).rooms = [] := by
    cases d.cameraView <;> simp [Layout3D.layout_create_eq]
  refine ⟨?_, ?_, ?_, rfl, rfl, rfl⟩
  · rw [hbridge, h1, hid]
  · rw [hbridge, h2, hdesc]
  · rw [hbridge, h3, hrooms]
    simp

/-- C7 counterexample: hydrating a record missing every required field
does not fail — there is no `MalformedDescriptionError` in the code —
and a partial entity (empty id, no rooms; furniture with absent
name/type) is returned to the caller. -/
theorem fromJSON_returns_partial_counterexample :
    (Layout3D.fromJSON malformedLayoutData S.empty).1 =
      { id := none, description := none, rooms := [], cameraView := none,
        group := 0 } ∧
    (Furniture.fromJSON malformedFurnitureData S.empty).1 =
      { name := none, ftype := none, modelUrl := none, mesh := 1, root := 3 } :=
  ⟨by decide, by decide⟩

/-- C8: the guard of `Furniture.dispose` compares `this.mesh` (a Mesh)
with `Furniture.placeholderGeometry` (a BufferGeometry), which is
always true, so for a furniture with an asset reference whose load
failed — its mesh is still the shared placeholder, as the second and
third conjuncts certify — `dispose()` disposes the process-wide shared
placeholder geometry and material, contradicting the documented intent
("If the mesh is NOT the shared placeholder ... dispose it"). -/
theorem dispose_kills_shared_placeholder :
    c8Furn.modelUrl = some "chair.glb" ∧
    S.geomOf c8State c8Furn.mesh = some Res.placeholderGeometry ∧
    S.matOf c8State c8Furn.mesh = some Res.placeholderMaterial ∧
    Res.placeholderGeometry ∈ (Furniture.dispose c8Furn c8State).disposed ∧
    Res.placeholderMaterial ∈ (Furniture.dispose c8Furn c8State).disposed := by
  refine ⟨rfl, by decide, by decide, by decide, by decide⟩

/-- C4 witness: in the concrete demo, two successive session clones of
the master hold walls at room 0, index 0, whose geometry and material
handles are both the shared `Wall.geometry` / `Wall.material`
singletons, hence reference-equal. -/
theorem wall_resources_shared_witness :
    (Layout3D.clone demoMaster demoState = (demoSession, demoS1) ∧
     Layout3D.clone demoMaster demoS1 = (demoSession2, demoS2) ∧
     demoSession.rooms.get? 0 = some demoR1 ∧
     demoR1.walls.get? 0 = some demoW1 ∧
     demoSession2.rooms.get? 0 = some demoR2 ∧
     demoR2.walls.get? 0 = some demoW2) ∧
    (S.geomOf demoS2 demoW1.mesh = some Res.wallGeometry ∧
     S.geomOf demoS2 demoW2.mesh = some Res.wallGeometry ∧
     S.geomOf demoS2 demoW1.mesh = S.geomOf demoS2 demoW2.mesh ∧
     S.matOf demoS2 demoW1.mesh = some Res.wallMaterial ∧
     S.matOf demoS2 demoW2.mesh = some Res.wallMaterial ∧
     S.matOf demoS2 demoW1.mesh = S.matOf demoS2 demoW2.mesh) :=
  ⟨⟨rfl, rfl, rfl, rfl, rfl, rfl⟩,
   wall_resources_shared_across_clones demoMaster demoState demoSession demoS1
     demoSession2 demoS2 rfl rfl 0 0 demoR1 demoR2 demoW1 demoW2 rfl rfl rfl rfl⟩

/-- C1 witness: the demo registry's session clone of `layout-101` holds
a copy of the sofa; moving the session's sofa to `(1, 0, 1)` leaves the
master sofa's node untouched, and moving the master's sofa leaves the
session copy's node untouched. -/
theorem session_isolation_witness :
    (LayoutRegistry.find demoRegistry "layout-101" = some demoMaster ∧
     LayoutRegistry.getSessionClone demoRegistry "layout-101" demoState =
       Except.ok (demoSession, demoS1) ∧
     (demoMaster.rooms.get? 0).bind (fun r => r.furnitureList.get? 0) =
       some demoSofa ∧
     (demoSession.rooms.get? 0).bind (fun r => r.furnitureList.get? 0) =
       some demoSessionSofa ∧
     demoSofa.root < demoState.fresh) ∧
    S.lookup (Furniture.setPosition demoSessionSofa 1 0 1 demoS1) demoSofa.root =
      S.lookup demoState demoSofa.root ∧
    S.lookup (Furniture.setPosition demoSofa 1 0 1 demoS1) demoSessionSofa.root =
      S.lookup demoS1 demoSessionSofa.root :=
  ⟨⟨rfl, rfl, rfl, rfl, by decide⟩,
   session_isolation demoRegistry "layout-101" demoMaster demoState rfl
     demoSession demoS1 rfl 0 0 demoSofa demoSessionSofa rfl rfl (by decide) 1 0 1⟩

/-- C3 witness: `loadAssets` on the demo master (sofa's fetch succeeds,
lamp's fails under `fetchMixed`) completes, keeps the room count, and
yields the pointwise account of every furniture slot. -/
theorem loadAssets_best_effort_witness :
    ((roomsFurnRoots demoMaster.rooms).Pairwise (fun a b => a ≠ b) ∧
     (∀ a ∈ roomsFurnRoots demoMaster.rooms, a < demoState.fresh)) ∧
    (Layout3D.loadAssets fetchMixed demoMaster demoState).1.rooms.length =
      demoMaster.rooms.length ∧
    (∀ i r, demoMaster.rooms.get? i = some r → ∃ fl,
      (Layout3D.loadAssets fetchMixed demoMaster demoState).1.rooms.get? i =
        some { r with furnitureList := fl } ∧
      fl.length = r.furnitureList.length ∧
      (∀ j f, r.furnitureList.get? j = some f →
        ((jsTruthy f.modelUrl = false →
            fl.get? j = some f ∧
            (Layout3D.loadAssets fetchMixed demoMaster demoState).2.lookup f.root =
              demoState.lookup f.root) ∧
         (∀ url e, f.modelUrl = some url → fetchMixed url = Except.error e →
            fl.get? j = some f ∧
            (Layout3D.loadAssets fetchMixed demoMaster demoState).2.lookup f.root =
              demoState.lookup f.root) ∧
         (∀ url g, f.modelUrl = some url → jsTruthy f.modelUrl = true →
            fetchMixed url = Except.ok g →
            ∃ addr lid, fl.get? j = some { f with mesh := addr } ∧
              demoState.fresh ≤ addr ∧
              (Layout3D.loadAssets fetchMixed demoMaster demoState).2.lookup addr =
                some (normalizedModelNode g lid) ∧
              (Layout3D.loadAssets fetchMixed demoMaster demoState).2.lookup f.root =
                (demoState.lookup f.root).map (fun nd =>
                  { nd with children :=
                    nd.children.filter (· ≠ f.mesh) ++ [addr] }))))) :=
  ⟨⟨by decide, by decide⟩,
   loadAssets_best_effort fetchMixed demoMaster demoState (by decide) (by decide)⟩
